import Mathlib

/-!
Verification of the PII detection and redaction engine of the
`backend_info` repository against its natural-language specification.

The development shallowly embeds the Python sources:
* `src/services/pii_detector.py` (the canonical V13.0 engine) in namespace `PII`;
* the per-record risk classifier of `src/report/report.py` (`main`) in
  namespace `Report`;
* the older engine of `src/report/indexReport.py` (the only revision that has
  a legal-process / SEI pattern) in namespace `IR`.

Regular expressions are embedded as an abstract syntax tree (`Re`) evaluated
by a fuel-bounded backtracking matcher with Python `re` semantics: leftmost
match, left alternative preferred, greedy repetition, non-overlapping
`finditer`.  External capabilities (the spaCy named-entity recognizer and the
`phonenumbers` library) are parameters of the embedded functions.
-/

namespace BackendInfo

/-! ### Characters and text

Texts are `List Char`; positions are character offsets, as in Python.
Character predicates mirror Python's `str` and `re` classes restricted to the
alphabet the engine actually uses (ASCII plus the accented letters occurring
in the Portuguese keyword patterns); full Unicode tables are not modelled. -/

/-- Accented letters appearing in the repository's patterns and data,
counted as word characters / alphanumeric as in Python (Unicode `\w`). -/
def extraLetters : List Char :=
  ['á', 'à', 'â', 'ã', 'ä', 'é', 'è', 'ê', 'ë', 'í', 'ì', 'î', 'ï',
   'ó', 'ò', 'ô', 'õ', 'ö', 'ú', 'ù', 'û', 'ü', 'ç', 'ñ',
   'Á', 'À', 'Â', 'Ã', 'Ä', 'É', 'È', 'Ê', 'Ë', 'Í', 'Ì', 'Î', 'Ï',
   'Ó', 'Ò', 'Ô', 'Õ', 'Ö', 'Ú', 'Ù', 'Û', 'Ü', 'Ç', 'Ñ']

/-- Python `\s` (ASCII part). -/
def isWs (c : Char) : Bool :=
  c = ' ' || c = '\t' || c = '\n' || c = '\r' || c = '\x0b' || c = '\x0c'

/-- Python `\w`: letters, digits and underscore. -/
def pyWord (c : Char) : Bool :=
  c.isAlphanum || c = '_' || extraLetters.contains c

/-- Python `str.isalnum` (letters and digits, no underscore). -/
def pyAlnum (c : Char) : Bool :=
  c.isAlphanum || extraLetters.contains c

/-- Python `int(c)` for a digit character. -/
def digitVal (c : Char) : Nat := c.toNat - '0'.toNat

/-- Python slice `t[s:e]` (indices clamped like Python's). -/
def sliceL (t : List Char) (s e : Nat) : List Char :=
  (t.drop s).take (e - s)

/-- Python `str.lower` (ASCII case only). -/
def lowerL (t : List Char) : List Char :=
  t.map Char.toLower

/-- Python `str.strip()`. -/
def stripWs (t : List Char) : List Char :=
  ((t.dropWhile isWs).reverse.dropWhile isWs).reverse

/-- Python `str.split()` (split on whitespace runs, no empty parts). -/
def splitWs : List Char → List (List Char)
  | [] => []
  | c :: rest =>
    if isWs c then splitWs rest
    else
      match splitWs rest with
      | [] => [[c]]
      | w :: ws =>
        match rest with
        | [] => [[c]]
        | c2 :: _ => if isWs c2 then [c] :: w :: ws else (c :: w) :: ws

/-! ### Regular expression syntax

`Re` mirrors the constructs used by the repository's patterns.  A negative
lookahead `(?!...)` is represented by a semantic predicate on the remaining
suffix (`nlk`), because the two lookaheads in the source
(`(?!.*\.gov\.br)` and `(?!\s*cpf)`) have simple direct readings. -/

inductive Re where
  /-- matches nothing, consumes nothing (used to terminate sequences) -/
  | eps : Re
  /-- a single character of the class `p` -/
  | cls : (Char → Bool) → Re
  | cat : Re → Re → Re
  /-- ordered alternation `a|b`: the left branch is preferred -/
  | alt : Re → Re → Re
  /-- greedy repetition `r{lo,hi}` (`hi = none` means unbounded) -/
  | rep : Nat → Option Nat → Re → Re
  /-- word boundary `\b` -/
  | wb : Re
  /-- negative lookahead: fails when the predicate holds on the suffix -/
  | nlk : (List Char → Bool) → Re

namespace Re

/-- a literal character -/
def chr (c : Char) : Re := .cls (fun x => x = c)

/-- a character class listing its members -/
def anyOf (s : String) : Re := .cls (fun x => s.toList.contains x)

/-- a literal string -/
def str (s : String) : Re := s.toList.foldr (fun c r => .cat (.chr c) r) .eps

/-- concatenation of a list of expressions -/
def seq (l : List Re) : Re := l.foldr .cat .eps

/-- ordered alternation of a list (first entry preferred, as in Python) -/
def oneOf : List Re → Re
  | [] => .nlk (fun _ => true)
  | [r] => r
  | r :: rs => .alt r (oneOf rs)

/-- `r?` -/
def opt (r : Re) : Re := .rep 0 (some 1) r

/-- `r*` -/
def star (r : Re) : Re := .rep 0 none r

/-- `r+` -/
def plus (r : Re) : Re := .rep 1 none r

/-- `r{n}` -/
def repN (n : Nat) (r : Re) : Re := .rep n (some n) r

end Re

/-- `\d` -/
def reD : Re := .cls Char.isDigit

/-- `\s` -/
def reS : Re := .cls isWs

/-- `[1-9]` -/
def reD19 : Re := .cls (fun c => '1' ≤ c && c ≤ '9')

/-- Class membership under Python's `re.IGNORECASE`: a character matches if
the class contains it or one of its (ASCII) case variants. -/
def clsMatch (ci : Bool) (p : Char → Bool) (c : Char) : Bool :=
  p c || (ci && (p c.toLower || p c.toUpper))

/-- `\b` at a position, given the previous character (if any) and the
remaining suffix. -/
def boundaryB (prev : Option Char) (rest : List Char) : Bool :=
  (match prev with | some c => pyWord c | none => false)
    != (match rest with | c :: _ => pyWord c | [] => false)

/-- One backtracking matcher step.  The machine state is a stack of
expressions still to match (`k`), the previous character (for `\b`), the
remaining suffix and the absolute position; on success it returns the end
position of the whole stack.  `Option.orElse` gives Python's preference
order (left alternative first, greedy repetition).  The fuel bound is never
reached by the patterns and texts of this development (no repeated
sub-pattern is nullable). -/
def reStep (ci : Bool) : Nat → List Re → Option Char → List Char → Nat → Option Nat
  | 0, _, _, _, _ => none
  | _ + 1, [], _, _, i => some i
  | f + 1, r :: k, prev, rest, i =>
    match r with
    | .eps => reStep ci f k prev rest i
    | .cls p =>
      match rest with
      | [] => none
      | c :: rs => if clsMatch ci p c then reStep ci f k (some c) rs (i + 1) else none
    | .cat a b => reStep ci f (a :: b :: k) prev rest i
    | .alt a b =>
      (reStep ci f (a :: k) prev rest i).orElse
        (fun _ => reStep ci f (b :: k) prev rest i)
    | .wb => if boundaryB prev rest then reStep ci f k prev rest i else none
    | .nlk g => if g rest then none else reStep ci f k prev rest i
    | .rep lo hi r' =>
      match lo, hi with
      | 0, some 0 => reStep ci f k prev rest i
      | 0, some (h + 1) =>
        (reStep ci f (r' :: .rep 0 (some h) r' :: k) prev rest i).orElse
          (fun _ => reStep ci f k prev rest i)
      | 0, none =>
        (reStep ci f (r' :: .rep 0 none r' :: k) prev rest i).orElse
          (fun _ => reStep ci f k prev rest i)
      | lo' + 1, _ => reStep ci f (r' :: .rep lo' (hi.map (· - 1)) r' :: k) prev rest i

/-- Fuel used for every match attempt. -/
def reFuel : Nat := 2000000

/-- Try to match `r` at one position. -/
def reMatchFrom (ci : Bool) (r : Re) (prev : Option Char) (rest : List Char)
    (i : Nat) : Option Nat :=
  reStep ci reFuel [r] prev rest i

/-- `re.finditer`: scan positions left to right, yield non-overlapping
matches, continue after each match. -/
def finditerAux (ci : Bool) (r : Re) :
    Nat → Option Char → List Char → Nat → List (Nat × Nat)
  | 0, _, _, _ => []
  | s + 1, prev, rest, i =>
    match reMatchFrom ci r prev rest i with
    | some e =>
      let k := max (e - i) 1
      let prev2 := match (rest.take k).getLast? with
                   | some c => some c
                   | none => prev
      (i, e) :: finditerAux ci r s prev2 (rest.drop k) (i + k)
    | none =>
      match rest with
      | [] => []
      | c :: rs => finditerAux ci r s (some c) rs (i + 1)

/-- All matches of `r` in `t` (Python `re.finditer`). -/
def reFinditer (ci : Bool) (r : Re) (t : List Char) : List (Nat × Nat) :=
  finditerAux ci r (t.length + 1) none t 0

/-- Python `re.search` as a Boolean. -/
def reSearch (ci : Bool) (r : Re) (t : List Char) : Bool :=
  !(reFinditer ci r t).isEmpty

/-! ### Shared engine state

The detectors accumulate a Python-style state: a set of character offsets to
mask (kept as the list of added indices), insertion-ordered counter maps
(Python `defaultdict(int)` / `dict`), and the `has_identifier` flag. -/

/-- The argument of `detect_and_redact`: a string, `None`/NaN (`pd.isna`),
or some non-string value. -/
inductive PyInput where
  | str : List Char → PyInput
  | naVal : PyInput
  | otherVal : PyInput
deriving DecidableEq

/-- An entity span as produced by the external spaCy recognizer
(`ent.label_`, `ent.start_char`, `ent.end_char`, `ent.text`). -/
structure Ent where
  label : String
  startChar : Nat
  endChar : Nat
  text : List Char
deriving DecidableEq

/-- Outcome of the external recognizer: the model is absent (`self.nlp` is
`None`), the call `self.nlp(text)` raised, or it returned entities. -/
inductive NerOutcome where
  | noModel : NerOutcome
  | failed : NerOutcome
  | ok : List Ent → NerOutcome
deriving DecidableEq

/-- `counts[key] += 1` on an insertion-ordered counter map. -/
def bump : List (String × Nat) → String → List (String × Nat)
  | [], k => [(k, 1)]
  | (k', v) :: rest, k =>
    if k' = k then (k', v + 1) :: rest else (k', v) :: bump rest k

/-- `counts[key] += n` on an insertion-ordered counter map. -/
def bumpBy : List (String × Nat) → String → Nat → List (String × Nat)
  | [], k, n => [(k, n)]
  | (k', v) :: rest, k, n =>
    if k' = k then (k', v + n) :: rest else (k', v) :: bumpBy rest k n

/-- Key lookup on a counter map (`dict.get`). -/
def lookupCount : List (String × Nat) → String → Option Nat
  | [], _ => none
  | (k', v) :: rest, k => if k' = k then some v else lookupCount rest k

/-- `set(range(s, e)).intersection(mask)` is non-empty. -/
def overlapsB (s e : Nat) (mask : List Nat) : Bool :=
  mask.any (fun i => s ≤ i && i < e)

/-- `mask.update(range(s, e))`. -/
def maskRange (s e : Nat) (mask : List Nat) : List Nat :=
  mask ++ List.range' s (e - s)

/-- The redaction renderer: walk the text index by index; a masked
alphanumeric character becomes `'x'`, everything else is kept. -/
def renderMask (t : List Char) (mask : List Nat) : List Char :=
  t.enum.map (fun p => if mask.contains p.1 then (if pyAlnum p.2 then 'x' else p.2) else p.2)

namespace PII

/-! ### `src/services/pii_detector.py` (canonical engine, V13.0)

Every pattern below is the direct translation of the regular expression in
the source; the original is quoted in each doc comment. -/

/-- `'CPF'` formatted pattern: `\b\d{3}\.\d{3}\.\d{3}-\d{2}\b`. -/
def cpfFormattedRe : Re :=
  Re.seq [.wb, Re.repN 3 reD, Re.chr '.', Re.repN 3 reD, Re.chr '.',
          Re.repN 3 reD, Re.chr '-', Re.repN 2 reD, .wb]

/-- `'CPF'` loose pattern: `\b\d{11}\b`. -/
def cpfLooseRe : Re := Re.seq [.wb, Re.repN 11 reD, .wb]

/-- `CPF_CONTEXT_KEYWORDS` (searched with `re.IGNORECASE` in a lowercased
window): `cpf`, `cadastro de pessoa f[íi]sica`, `inscri[çc][ãa]o`,
`inscrito no cpf`, `cpf n[úu]mero`, `cpf sob o n[úu]mero`,
`portador do cpf`, `titular do cpf`, `contribuinte`, `documento cpf`,
`cadastro cpf`. -/
def cpfContextKeywords : List Re :=
  [Re.str "cpf",
   Re.seq [Re.str "cadastro de pessoa f", Re.anyOf "íi", Re.str "sica"],
   Re.seq [Re.str "inscri", Re.anyOf "çc", Re.anyOf "ãa", Re.str "o"],
   Re.str "inscrito no cpf",
   Re.seq [Re.str "cpf n", Re.anyOf "úu", Re.str "mero"],
   Re.seq [Re.str "cpf sob o n", Re.anyOf "úu", Re.str "mero"],
   Re.str "portador do cpf",
   Re.str "titular do cpf",
   Re.str "contribuinte",
   Re.str "documento cpf",
   Re.str "cadastro cpf"]

/-- The negative lookahead `(?!.*\.gov\.br)` of the email pattern: the
suffix contains `.gov.br` with no newline before it (`.` does not cross
newlines). -/
def govLookahead : List Char → Bool
  | [] => false
  | c :: rest =>
    if ".gov.br".toList.isPrefixOf (c :: rest) then true
    else if c = '\n' then false
    else govLookahead rest

/-- The negative lookahead `(?!\s*cpf)` of the registry pattern (under
`re.IGNORECASE`): whitespace then `cpf` follows. -/
def notCpfLookahead : List Char → Bool
  | [] => false
  | c :: rest =>
    if isWs c then notCpfLookahead rest
    else lowerL ((c :: rest).take 3) == "cpf".toList

/-- `[A-Za-z0-9._%+-]` (email local part). -/
def emailLocalP (c : Char) : Bool :=
  c.isAlpha || c.isDigit || "._%+-".toList.contains c

/-- `[A-Za-z0-9.-]` (email domain). -/
def emailDomP (c : Char) : Bool :=
  c.isAlpha || c.isDigit || c = '.' || c = '-'

/-- `[A-Z|a-z]` (email top-level domain; the class contains a literal
`|`). -/
def emailTldP (c : Char) : Bool :=
  c.isAlpha || c = '|'

/-- `'EMAIL'`:
`\b[A-Za-z0-9._%+-]+@(?!.*\.gov\.br)[A-Za-z0-9.-]+\.[A-Z|a-z]{2,}\b`. -/
def emailRe : Re :=
  Re.seq [.wb, .rep 1 none (.cls emailLocalP), Re.chr '@', .nlk govLookahead,
          .rep 1 none (.cls emailDomP), Re.chr '.', .rep 2 none (.cls emailTldP), .wb]

/-- `'CNPJ'`: `\b\d{2}\.\d{3}\.\d{3}/\d{4}-\d{2}\b`. -/
def cnpjRe : Re :=
  Re.seq [.wb, Re.repN 2 reD, Re.chr '.', Re.repN 3 reD, Re.chr '.',
          Re.repN 3 reD, Re.chr '/', Re.repN 4 reD, Re.chr '-', Re.repN 2 reD, .wb]

/-- `'CEP'`: `\b\d{5}\s*[-]\s*\d{3}\b`. -/
def cepRe : Re :=
  Re.seq [.wb, Re.repN 5 reD, Re.star reS, Re.chr '-', Re.star reS, Re.repN 3 reD, .wb]

/-- `[A-Za-z0-9\s,.-]` (address body). -/
def addrBodyP (c : Char) : Bool :=
  c.isAlpha || c.isDigit || isWs c || c = ',' || c = '.' || c = '-'

/-- `[A-Z]` (case-folded under `re.IGNORECASE` by the matcher). -/
def reAZ : Re := .cls (fun c => 'A' ≤ c && c ≤ 'Z')

/-- `'FULL_ADDRESS'` (with `(?i)`):
`\b(?:Rua|Av\.|Avenida|Q\.|Qd\.|Quadra|SQN|SQS|SHN|SHS|CLN|CRN|SRES|SHDF|Cond\.|Bloco|Bl\.|Lote|Lt\.|Conjunto|Conj\.|Arts|Al\.|Alameda)\s+[A-Za-z0-9\s,.-]{1,100}(?:(?:\b\d+|[A-Z]\b))`. -/
def addressRe : Re :=
  Re.seq [.wb,
    Re.oneOf [Re.str "Rua", Re.str "Av.", Re.str "Avenida", Re.str "Q.",
      Re.str "Qd.", Re.str "Quadra", Re.str "SQN", Re.str "SQS", Re.str "SHN",
      Re.str "SHS", Re.str "CLN", Re.str "CRN", Re.str "SRES", Re.str "SHDF",
      Re.str "Cond.", Re.str "Bloco", Re.str "Bl.", Re.str "Lote", Re.str "Lt.",
      Re.str "Conjunto", Re.str "Conj.", Re.str "Arts", Re.str "Al.",
      Re.str "Alameda"],
    Re.plus reS, .rep 1 (some 100) (.cls addrBodyP),
    .alt (Re.seq [.wb, Re.plus reD]) (Re.seq [reAZ, .wb])]

/-- `[:\s.]` (registry separator). -/
def regSepP (c : Char) : Bool := c = ':' || isWs c || c = '.'

/-- `'GENERAL_REGISTRY'` (with `(?i)`):
`(?:RG|CNH|Matr[íi]cula|NIS|PIS|PASEP|NIT|CTPS|IPTU|Inscri[çc][ãa]o|T[íi]tulo\s(?:de\s)?Eleitor)(?!\s*cpf)[:\s\.]+\d{1,15}[-\d]*|\b\d{3}\.\d{5}\.\d{2}-\d\b`. -/
def grRe : Re :=
  .alt
    (Re.seq [
      Re.oneOf [Re.str "RG", Re.str "CNH",
        Re.seq [Re.str "Matr", Re.anyOf "íi", Re.str "cula"],
        Re.str "NIS", Re.str "PIS", Re.str "PASEP", Re.str "NIT",
        Re.str "CTPS", Re.str "IPTU",
        Re.seq [Re.str "Inscri", Re.anyOf "çc", Re.anyOf "ãa", Re.str "o"],
        Re.seq [Re.str "T", Re.anyOf "íi", Re.str "tulo", reS,
                Re.opt (Re.seq [Re.str "de", reS]), Re.str "Eleitor"]],
      .nlk notCpfLookahead, Re.plus (.cls regSepP), .rep 1 (some 15) reD,
      Re.star (.cls (fun c => c = '-' || c.isDigit))])
    (Re.seq [.wb, Re.repN 3 reD, Re.chr '.', Re.repN 5 reD, Re.chr '.',
             Re.repN 2 reD, Re.chr '-', reD, .wb])

/-- `[2-5]`. -/
def reD25 : Re := .cls (fun c => '2' ≤ c && c ≤ '5')

/-- `[-.\s]`. -/
def sepP (c : Char) : Bool := c = '-' || c = '.' || isWs c

/-- `phone_patterns` in order, each with its `re.IGNORECASE` flag:
`\b(?:\(?[1-9]{2}\)?\s?)(?:9\s?\d|[2-5]\d)\d{2}[-.\s]\d{4}\b`,
`\b[1-9]{2}9\d{8}\b`,
`\b[1-9]{2}[2-5]\d{7}\b`,
`(?i)(?:tel|cel|zap|whatsapp|contato|fone)[:\s\.]+\d{8,12}\b`. -/
def phonePatterns : List (Bool × Re) :=
  [(false, Re.seq [.wb, Re.opt (Re.chr '('), Re.repN 2 reD19, Re.opt (Re.chr ')'),
      Re.opt reS,
      .alt (Re.seq [Re.chr '9', Re.opt reS, reD]) (Re.seq [reD25, reD]),
      Re.repN 2 reD, .cls sepP, Re.repN 4 reD, .wb]),
   (false, Re.seq [.wb, Re.repN 2 reD19, Re.chr '9', Re.repN 8 reD, .wb]),
   (false, Re.seq [.wb, Re.repN 2 reD19, reD25, Re.repN 7 reD, .wb]),
   (true, Re.seq [
      Re.oneOf [Re.str "tel", Re.str "cel", Re.str "zap", Re.str "whatsapp",
                Re.str "contato", Re.str "fone"],
      Re.plus (.cls regSepP), .rep 8 (some 12) reD, .wb])]

/-- `sensitive_keywords` in dictionary order, each list in source order;
all searched with `re.IGNORECASE`. -/
def sensitiveKeywords : List (String × List Re) :=
  [("SENSITIVE_HEALTH",
    [Re.seq [.wb, Re.str "diagn", Re.anyOf "oó", Re.str "stico d", Re.anyOf "eo", .wb],
     Re.seq [.wb, Re.str "portador d", Re.anyOf "eo", Re.chr ' ',
       Re.oneOf [Re.seq [Re.str "c", Re.anyOf "âa", Re.str "ncer"], Re.str "hiv",
                 Re.str "aids", Re.seq [Re.str "defici", Re.anyOf "êe", Re.str "ncia"]],
       .wb],
     Re.seq [.wb, Re.str "minha doen", Re.anyOf "çc", Re.str "a", .wb],
     Re.seq [.wb, Re.str "laudo m", Re.anyOf "ée", Re.str "dico", .wb],
     Re.seq [.wb, Re.str "CID", Re.opt reS, reAZ, reD],
     Re.seq [.wb, Re.str "transtorno ",
       Re.oneOf [Re.str "mental", Re.str "bipolar", Re.str "ansiedade"], .wb],
     Re.seq [.wb, Re.str "exame d", Re.anyOf "eo", Re.chr ' ',
       Re.oneOf [Re.str "sangue", Re.str "dna",
                 Re.seq [Re.str "bi", Re.anyOf "óo", Re.str "psia"]], .wb],
     Re.seq [.wb, Re.str "sofria de", .wb],
     Re.seq [.wb, Re.str "paciente com", .wb]]),
   ("SENSITIVE_MINOR",
    [Re.seq [.wb, Re.str "menor de idade", .wb],
     Re.seq [.wb, Re.str "tutela d", Re.anyOf "eo", Re.str " menor", .wb],
     Re.seq [.wb, Re.str "guarda d", Re.anyOf "oa", Re.str " crian", Re.anyOf "çc",
             Re.str "a", .wb],
     Re.seq [.wb, Re.str "filh", Re.anyOf "oa", Re.str " menor", .wb],
     Re.seq [.wb, Re.str "adolescente infrator", .wb],
     Re.seq [.wb, Re.str "certid", Re.anyOf "ãa", Re.str "o de nascimento", .wb],
     Re.seq [.wb, Re.str "conselho tutelar", .wb]]),
   ("SENSITIVE_SOCIAL",
    [Re.seq [.wb, Re.str "vulnerabilidade social", .wb],
     Re.seq [.wb, Re.str "benefici", Re.anyOf "áa", Re.str "rio do ",
       Re.oneOf [Re.str "bolsa", Re.seq [Re.str "aux", Re.anyOf "íi", Re.str "lio"]],
       .wb],
     Re.seq [.wb, Re.str "recebe cesta b", Re.anyOf "áa", Re.str "sica", .wb],
     Re.seq [.wb, Re.str "cad", Re.anyOf "úu", Re.str "nico", .wb]]),
   ("SENSITIVE_RACE",
    [Re.seq [.wb, Re.str "autodeclara", Re.anyOf "çc", Re.anyOf "ãa",
             Re.str "o de cor", .wb],
     Re.seq [.wb, Re.str "cor d", Re.anyOf "ae", Re.str " pele", .wb],
     Re.seq [.wb, Re.str "quesito raça", .wb]]),
   ("SENSITIVE_GENDER",
    [Re.seq [.wb, Re.str "nome social", .wb],
     Re.seq [.wb, Re.str "cirurgia de redesigna", Re.anyOf "çc", Re.anyOf "ãa",
             Re.str "o", .wb],
     Re.seq [.wb, Re.str "identidade de g", Re.anyOf "êe", Re.str "nero", .wb]])]

/-- Honorific check `(?i)\b(?:dr|dra|sr|sra)\.?\s` searched in the five
characters before an entity. -/
def honorificRe : Re :=
  Re.seq [.wb, Re.oneOf [Re.str "dr", Re.str "dra", Re.str "sr", Re.str "sra"],
          Re.opt (Re.chr '.'), reS]

/-- `PII_TYPES` of the service detector. -/
def piiTypes : List (String × String) :=
  [("PERSON_NAME", "Nome de Pessoa"),
   ("CPF", "Cadastro de Pessoa Física"),
   ("CNPJ", "Cadastro Nacional de Pessoa Jurídica"),
   ("EMAIL", "Endereço de E-mail"),
   ("PHONE", "Número de Telefone"),
   ("FULL_ADDRESS", "Endereço Completo"),
   ("CEP", "Código de Endereçamento Postal"),
   ("GENERAL_REGISTRY", "Registros Gerais (RG/NIS/PIS/CNH)"),
   ("SENSITIVE_HEALTH", "Dados de Saúde (Sensível)"),
   ("SENSITIVE_MINOR", "Dados de Menor de Idade (Sensível)"),
   ("SENSITIVE_SOCIAL", "Dados Sociais (Sensível)"),
   ("SENSITIVE_RACE", "Dados de Raça/Cor (Sensível)"),
   ("SENSITIVE_GENDER", "Dados de Gênero (Sensível)")]

/-- `get_description`. -/
def getDescription (k : String) : String :=
  ((piiTypes.find? (fun p => p.1 == k)).map (fun p => p.2)).getD k

/-- `COMMON_NAMES` (IBGE first names). -/
def commonNames : List String :=
  ["maria", "joao", "ana", "carlos", "paulo", "jose", "lucas", "pedro",
   "marcos", "luiz", "gabriel", "rafael", "francisco", "marcelo", "bruno",
   "felipe", "guilherme", "rodrigo", "antonio", "mateus", "andre", "fernando",
   "fabio", "leonardo", "gustavo", "juliana", "patricia", "aline", "camila",
   "bruna", "jessica", "leticia", "julia", "luciana", "amanda", "mariana",
   "vanessa", "alice", "beatriz", "larissa", "debora", "claudia", "carol",
   "carolina", "sandra", "regina", "roberta", "edson", "sergio", "vitor",
   "thiago", "alexandre", "eduardo", "daniel", "renato", "ricardo", "jorge",
   "samuel", "diego", "leandro", "tiago", "anderson", "claudio", "marcio",
   "mauro", "roberto", "wellington", "wallace", "robson", "cristiano",
   "geraldo", "raimundo", "sebastiao", "miguel", "arthur", "heitor", "bernardo",
   "davi", "theo", "lorenzo", "gael", "bento", "helena", "laura",
   "sophia", "manuela", "maite", "liz", "cecilia", "elisa", "maitê", "eloá"]

/-- `COMMON_SURNAMES`. -/
def commonSurnames : List String :=
  ["silva", "santos", "oliveira", "souza", "rodrigues", "ferreira", "alves",
   "pereira", "lima", "gomes", "costa", "ribeiro", "martins", "carvalho",
   "almeida", "lopes", "soares", "fernandes", "vieira", "barbosa", "rocha",
   "dias", "nascimento", "andrade", "moreira", "nunes", "marques", "machado",
   "mendes", "freitas", "cardoso", "ramos", "goncalves", "santana", "teixeira",
   "cavalcanti", "moura", "campos", "jesus", "pinto", "araujo", "leite",
   "barros", "farias", "cunha", "reis", "siqueira", "moraes", "castro",
   "batista", "neves", "rosa", "medeiros", "dantas", "conceicao", "braga",
   "filho", "neto", "junior", "sobrinho", "mota", "vasconcelos", "cruz",
   "viana", "peixoto", "maia", "monteiro", "coelho", "correia", "brito"]

/-- `_validate_cpf_digit`: exactly 11 decimal digits, not all equal, and
both check digits match (`digito = soma * 10 % 11 % 10`). -/
def validateCpfDigit (cpf : List Char) : Bool :=
  if cpf.length ≠ 11 || !(cpf.all Char.isDigit) then false
  else if cpf.all (fun c => c = cpf.headD '0') then false
  else
    let d := fun i => (cpf.getD i '0').toNat - '0'.toNat
    let soma1 := (List.range 9).foldl (fun a i => a + d i * (10 - i)) 0
    if soma1 * 10 % 11 % 10 ≠ d 9 then false
    else
      let soma2 := (List.range 10).foldl (fun a i => a + d i * (11 - i)) 0
      soma2 * 10 % 11 % 10 == d 10

/-- `_has_cpf_context`: any context keyword matches in the lowercased
window `text[max(0, pos-50) : min(len, pos+50)]`. -/
def hasCpfContext (t : List Char) (position : Nat) : Bool :=
  let context := lowerL (sliceL t (position - 50) (min t.length (position + 50)))
  cpfContextKeywords.any (fun kw => reSearch true kw context)

/-- Matches of the formatted tax-ID pattern. -/
def cpfFormattedMatches (t : List Char) : List (Nat × Nat) :=
  reFinditer false cpfFormattedRe t

/-- Matches of the loose (bare 11-digit) pattern. -/
def cpfLooseMatches (t : List Char) : List (Nat × Nat) :=
  reFinditer false cpfLooseRe t

/-- `_detect_cpf`: all formatted matches (always accepted), then every loose
match that overlaps no previously detected position and has a context
keyword nearby; each span carries its checksum verdict. -/
def detectCpf (t : List Char) : List (Nat × Nat × Bool) :=
  let fm := cpfFormattedMatches t
  let base := fm.map (fun m =>
    (m.1, m.2, validateCpfDigit ((sliceL t m.1 m.2).filter Char.isDigit)))
  let positions := fm.foldl (fun ps m => ps ++ List.range' m.1 (m.2 - m.1)) []
  ((cpfLooseMatches t).foldl
    (fun (acc : List Nat × List (Nat × Nat × Bool)) m =>
      if (List.range' m.1 (m.2 - m.1)).any (fun p => acc.1.contains p) then acc
      else if hasCpfContext t m.1 then
        (acc.1 ++ List.range' m.1 (m.2 - m.1),
         acc.2 ++ [(m.1, m.2, validateCpfDigit (sliceL t m.1 m.2))])
      else acc)
    (positions, base)).2

/-- Matches of the email pattern (the EMAIL detector's spans). -/
def emailMatches (t : List Char) : List (Nat × Nat) :=
  reFinditer false emailRe t

/-- Accumulated state of one `detect_and_redact` call. -/
structure St where
  mask : List Nat
  stats : List (String × Nat)
  invalid : List (String × Nat)
  hasId : Bool
deriving DecidableEq

/-- The shared candidate-span treatment of detectors 2-7: drop the span if
it intersects the mask, otherwise mask it, count it and (for identifying
categories) raise `has_identifier`. -/
def addSpan (st : St) (s e : Nat) (key : String) (setId : Bool) : St :=
  if overlapsB s e st.mask then st
  else
    { mask := maskRange s e st.mask, stats := bump st.stats key,
      invalid := st.invalid, hasId := st.hasId || setId }

/-- Step 1 of `detect_and_redact`: every span from `_detect_cpf` is masked
and counted unconditionally; an invalid checksum is also tallied. -/
def cpfStage (t : List Char) (st : St) : St :=
  (detectCpf t).foldl
    (fun st m =>
      { mask := maskRange m.1 m.2.1 st.mask,
        stats := bump st.stats "CPF",
        invalid := if m.2.2 then st.invalid else bump st.invalid "CPF_INVALID",
        hasId := true })
    st

/-- Processing of one recognizer entity (step 2): only `PER` labels with at
least two cleaned tokens, cross-validated against the name dictionaries or a
preceding honorific. -/
def entStep (t : List Char) (st : St) (ent : Ent) : St :=
  if ent.label = "PER" then
    let cleanName := (lowerL (stripWs ent.text)).filter (fun c => pyWord c || isWs c)
    let parts := splitWs cleanName
    if parts.length < 2 then st
    else
      let hasCommon := parts.any (fun p =>
        commonNames.contains p.asString || commonSurnames.contains p.asString)
      let hasHonor := reSearch true honorificRe (sliceL t (ent.startChar - 5) ent.startChar)
      if hasCommon || hasHonor then addSpan st ent.startChar ent.endChar "PERSON_NAME" true
      else st
  else st

/-- Step 2: the recognizer block (`if self.nlp:` with `try`/`except`): a
missing model or a raised exception contributes nothing. -/
def nerStage (t : List Char) (ner : NerOutcome) (st : St) : St :=
  match ner with
  | .noModel => st
  | .failed => st
  | .ok ents => ents.foldl (entStep t) st

/-- Step 3: `GENERAL_REGISTRY` matches. -/
def grStage (t : List Char) (st : St) : St :=
  (reFinditer true grRe t).foldl
    (fun st m => addSpan st m.1 m.2 "GENERAL_REGISTRY" true) st

/-- Step 4: `CNPJ` matches. -/
def cnpjStage (t : List Char) (st : St) : St :=
  (reFinditer false cnpjRe t).foldl
    (fun st m => addSpan st m.1 m.2 "CNPJ" false) st

/-- Step 5: `EMAIL`, `FULL_ADDRESS`, `CEP` in order; a `CEP` hit is counted
under the `FULL_ADDRESS` key. -/
def contactStage (t : List Char) (st : St) : St :=
  let st := (reFinditer false emailRe t).foldl
    (fun st m => addSpan st m.1 m.2 "EMAIL" false) st
  let st := (reFinditer true addressRe t).foldl
    (fun st m => addSpan st m.1 m.2 "FULL_ADDRESS" false) st
  (reFinditer false cepRe t).foldl
    (fun st m => addSpan st m.1 m.2 "FULL_ADDRESS" false) st

/-- Step 6: the four phone regexes in order. -/
def phoneStage (t : List Char) (st : St) : St :=
  phonePatterns.foldl
    (fun st p => (reFinditer p.1 p.2 t).foldl
      (fun st m => addSpan st m.1 m.2 "PHONE" false) st)
    st

/-- Step 7: spans of valid numbers from the external `phonenumbers`
matcher (a parameter of the embedding; its `try`/`except` means a failing
call contributes the empty list). -/
def phoneLibStage (lib : List (Nat × Nat)) (st : St) : St :=
  lib.foldl (fun st m => addSpan st m.1 m.2 "PHONE" false) st

/-- One sensitive-keyword hit: masked and counted whenever
`has_identifier` is set, with no overlap check. -/
def sensAdd (key : String) (st : St) (m : Nat × Nat) : St :=
  if st.hasId then
    { st with mask := maskRange m.1 m.2 st.mask, stats := bump st.stats key }
  else st

/-- Step 8: the sensitive-topic scanner. -/
def sensStage (t : List Char) (st : St) : St :=
  sensitiveKeywords.foldl
    (fun st kv => kv.2.foldl
      (fun st kw => (reFinditer true kw t).foldl (sensAdd kv.1) st) st)
    st

/-- State after steps 1-7, before the sensitive-topic scanner. -/
def pipelinePreSens (t : List Char) (ner : NerOutcome) (lib : List (Nat × Nat)) : St :=
  phoneLibStage lib (phoneStage t (contactStage t (cnpjStage t
    (grStage t (nerStage t ner (cpfStage t ⟨[], [], [], false⟩))))))

/-- Full accumulated state of one call. -/
def pipeline (t : List Char) (ner : NerOutcome) (lib : List (Nat × Nat)) : St :=
  sensStage t (pipelinePreSens t ner lib)

/-- `detect_and_redact`: non-string and missing inputs pass through with
empty maps; otherwise run the detector pipeline and render the mask. -/
def detectAndRedact (inp : PyInput) (ner : NerOutcome) (lib : List (Nat × Nat)) :
    PyInput × List (String × Nat) × List (String × Nat) :=
  match inp with
  | .str t =>
    let st := pipeline t ner lib
    (.str (renderMask t st.mask), st.stats, st.invalid)
  | x => (x, [], [])

end PII

namespace Report

/-! ### `src/report/report.py`: the per-record risk classifier of `main`

`main` classifies each record's category-count map: any key of
`critical_categories` present means level `CRÍTICO` with the descriptions of
the critical keys found; otherwise any key of `moderate_categories` present
means `MODERADO`; a record with empty statistics is `PÚBLICO`; a non-empty
map with neither kind of key receives no classification at all. -/

/-- `PII_TYPES` of the report-script detector. -/
def piiTypes : List (String × String) :=
  [("PERSON_NAME", "Nome de Pessoa"),
   ("CPF", "Cadastro de Pessoa Física"),
   ("CNPJ", "Cadastro Nacional de Pessoa Jurídica"),
   ("EMAIL", "Endereço de E-mail"),
   ("PHONE", "Número de Telefone"),
   ("FULL_ADDRESS", "Endereço Completo"),
   ("GENERAL_REGISTRY", "Registros Gerais (RG/NIS/PIS/CNH)"),
   ("SENSITIVE_HEALTH", "Dados de Saúde (Sensível)"),
   ("SENSITIVE_MINOR", "Dados de Menor de Idade (Sensível)"),
   ("SENSITIVE_SOCIAL", "Dados Sociais (Sensível)"),
   ("SENSITIVE_RACE", "Dados de Raça/Cor (Sensível)"),
   ("SENSITIVE_GENDER", "Dados de Gênero (Sensível)")]

/-- `get_description`. -/
def getDescription (k : String) : String :=
  ((piiTypes.find? (fun p => p.1 == k)).map (fun p => p.2)).getD k

/-- `critical_categories` (impede publication). -/
def criticalCategories : List String :=
  ["CPF", "CNPJ", "GENERAL_REGISTRY", "SENSITIVE_HEALTH", "SENSITIVE_MINOR",
   "SENSITIVE_SOCIAL", "SENSITIVE_RACE", "SENSITIVE_GENDER"]

/-- `moderate_categories` (require attention). -/
def moderateCategories : List String :=
  ["EMAIL", "PHONE", "FULL_ADDRESS", "PERSON_NAME"]

/-- Every category key the report-script engine can emit. -/
def engineCategories : List String := criticalCategories ++ moderateCategories

/-- The per-record risk classification of `main` (lines 650-684): level and
reasons, or no classification for a non-empty map without known keys. -/
def classifyRecord (stats : List (String × Nat)) : Option (String × List String) :=
  if stats.isEmpty then some ("PÚBLICO", [])
  else if criticalCategories.any (fun c => (stats.map (fun p => p.1)).contains c) then
    some ("CRÍTICO",
      ((stats.map (fun p => p.1)).filter
        (fun c => criticalCategories.contains c)).map getDescription)
  else if moderateCategories.any (fun c => (stats.map (fun p => p.1)).contains c) then
    some ("MODERADO",
      ((stats.map (fun p => p.1)).filter
        (fun c => moderateCategories.contains c)).map getDescription)
  else none

end Report

namespace IR

/-! ### `src/report/indexReport.py`: the engine revision with a
legal-process (SEI) pattern

Its `detect_and_redact` applies the eight regex patterns in dictionary
order — `PHONE` before `SEI_PROCESS` — counting every match of every
pattern and masking all their spans without any overlap resolution, then
adds recognizer entities. -/

/-- `[-\s]`. -/
def dashWsP (c : Char) : Bool := c = '-' || isWs c

/-- `'CPF'`: `\b\d{3}\.?\d{3}\.?\d{3}[-\s]?\d{2}\b`. -/
def cpfRe : Re :=
  Re.seq [.wb, Re.repN 3 reD, Re.opt (Re.chr '.'), Re.repN 3 reD,
          Re.opt (Re.chr '.'), Re.repN 3 reD, Re.opt (.cls dashWsP),
          Re.repN 2 reD, .wb]

/-- `'CNPJ'`: `\b\d{2}\.?\d{3}\.?\d{3}[/]?\d{4}[-\s]?\d{2}\b`. -/
def cnpjRe : Re :=
  Re.seq [.wb, Re.repN 2 reD, Re.opt (Re.chr '.'), Re.repN 3 reD,
          Re.opt (Re.chr '.'), Re.repN 3 reD, Re.opt (Re.chr '/'),
          Re.repN 4 reD, Re.opt (.cls dashWsP), Re.repN 2 reD, .wb]

/-- `'RG'`: `\b\d{1,2}\.?\d{3}\.?\d{3}[-\s]?[0-9xX]\b`. -/
def rgRe : Re :=
  Re.seq [.wb, .rep 1 (some 2) reD, Re.opt (Re.chr '.'), Re.repN 3 reD,
          Re.opt (Re.chr '.'), Re.repN 3 reD, Re.opt (.cls dashWsP),
          .cls (fun c => c.isDigit || c = 'x' || c = 'X'), .wb]

/-- `'EMAIL'`: `\b[A-Za-z0-9._%+-]+@[A-Za-z0-9.-]+\.[A-Z|a-z]{2,}\b`
(no lookahead in this revision). -/
def emailRe : Re :=
  Re.seq [.wb, .rep 1 none (.cls PII.emailLocalP), Re.chr '@',
          .rep 1 none (.cls PII.emailDomP), Re.chr '.',
          .rep 2 none (.cls PII.emailTldP), .wb]

/-- `'PHONE'`: `\b(?:\(?\d{2}\)?\s?)?(?:9\s?\d{4}|\d{4})[-.\s]?\d{4}\b`. -/
def phoneRe : Re :=
  Re.seq [.wb,
    Re.opt (Re.seq [Re.opt (Re.chr '('), Re.repN 2 reD, Re.opt (Re.chr ')'),
                    Re.opt reS]),
    .alt (Re.seq [Re.chr '9', Re.opt reS, Re.repN 4 reD]) (Re.repN 4 reD),
    Re.opt (.cls PII.sepP), Re.repN 4 reD, .wb]

/-- `'CEP'`: `\b\d{5}[-\s]?\d{3}\b`. -/
def cepRe : Re :=
  Re.seq [.wb, Re.repN 5 reD, Re.opt (.cls dashWsP), Re.repN 3 reD, .wb]

/-- `'SEI_PROCESS'`: `\b\d{5}[-\s]?\d{6,}[/]?\d{4}[-\s]?\d{2}\b`. -/
def seiRe : Re :=
  Re.seq [.wb, Re.repN 5 reD, Re.opt (.cls dashWsP), .rep 6 none reD,
          Re.opt (Re.chr '/'), Re.repN 4 reD, Re.opt (.cls dashWsP),
          Re.repN 2 reD, .wb]

/-- `'DATE_BIRTH'`:
`\b(?:0?[1-9]|[12][0-9]|3[01])[/\-](?:0?[1-9]|1[0-2])[/\-](?:19|20)\d{2}\b`. -/
def dateRe : Re :=
  Re.seq [.wb,
    Re.oneOf [Re.seq [Re.opt (Re.chr '0'), reD19],
              Re.seq [Re.anyOf "12", reD],
              Re.seq [Re.chr '3', Re.anyOf "01"]],
    .cls (fun c => c = '/' || c = '-'),
    Re.oneOf [Re.seq [Re.opt (Re.chr '0'), reD19],
              Re.seq [Re.chr '1', Re.anyOf "012"]],
    .cls (fun c => c = '/' || c = '-'),
    .alt (Re.str "19") (Re.str "20"), Re.repN 2 reD, .wb]

/-- `regex_patterns` in dictionary order. -/
def irPatterns : List (String × Re) :=
  [("CPF", cpfRe), ("CNPJ", cnpjRe), ("RG", rgRe), ("EMAIL", emailRe),
   ("PHONE", phoneRe), ("CEP", cepRe), ("SEI_PROCESS", seiRe),
   ("DATE_BIRTH", dateRe)]

/-- The regex loop over a pattern list: for each pattern with a non-empty
match list, add the number of matches to its count and mask every span. -/
def regexFold (t : List Char) (pats : List (String × Re))
    (st : List Nat × List (String × Nat)) : List Nat × List (String × Nat) :=
  pats.foldl
    (fun st kv =>
      let ms := reFinditer false kv.2 t
      if ms.isEmpty then st
      else
        (ms.foldl (fun mask m => mask ++ List.range' m.1 (m.2 - m.1)) st.1,
         bumpBy st.2 kv.1 ms.length))
    st

/-- The regex loop of `detect_and_redact` (over `regex_patterns.items()`). -/
def regexStage (t : List Char) (st : List Nat × List (String × Nat)) :
    List Nat × List (String × Nat) :=
  regexFold t irPatterns st

/-- The recognizer loop: multi-word `PER` entities and all `LOC`
entities. -/
def entStage (ents : List Ent) (st : List Nat × List (String × Nat)) :
    List Nat × List (String × Nat) :=
  ents.foldl
    (fun st ent =>
      if ent.label = "PER" && decide (1 < (splitWs ent.text).length) then
        (st.1 ++ List.range' ent.startChar (ent.endChar - ent.startChar),
         bump st.2 "PERSON_NAME")
      else if ent.label = "LOC" then
        (st.1 ++ List.range' ent.startChar (ent.endChar - ent.startChar),
         bump st.2 "LOCATION")
      else st)
    st

/-- `detect_and_redact` of the indexReport engine. -/
def detect (inp : PyInput) (ents : List Ent) : PyInput × List (String × Nat) :=
  match inp with
  | .str t =>
    let st := entStage ents (regexStage t ([], []))
    (.str (renderMask t st.1), st.2)
  | x => (x, [])

end IR

/-- The sensitive-topic category keys, in source order. -/
def sensitiveCats : List String := PII.sensitiveKeywords.map (fun p => p.1)

/-- Evidence that an identifying category was counted: the `has_identifier`
flag is only ever raised together with a `CPF`, `PERSON_NAME` or
`GENERAL_REGISTRY` count. -/
def identifierEvidence (st : PII.St) : Prop :=
  st.hasId = true →
    lookupCount st.stats "CPF" ≠ none ∨
    lookupCount st.stats "PERSON_NAME" ≠ none ∨
    lookupCount st.stats "GENERAL_REGISTRY" ≠ none

/-! ### Association-list and fold lemmas -/

theorem lookupCount_bump_self (l : List (String × Nat)) (k : String) :
    lookupCount (bump l k) k = some ((lookupCount l k).getD 0 + 1) := by
  induction l with
  | nil => simp [bump, lookupCount]
  | cons p rest ih =>
    by_cases h : p.1 = k
    · simp [bump, lookupCount, h]
    · simp [bump, lookupCount, h, ih]

theorem lookupCount_bump_ne (l : List (String × Nat)) {k k' : String}
    (h : k' ≠ k) : lookupCount (bump l k) k' = lookupCount l k' := by
  induction l with
  | nil => simp [bump, lookupCount, h, Ne.symm h]
  | cons p rest ih =>
    by_cases hp : p.1 = k
    · simp [bump, lookupCount, hp, h, Ne.symm h]
    · by_cases hp' : p.1 = k' <;> simp [bump, lookupCount, hp, hp', h, Ne.symm h, ih]

theorem lookupCount_bump_isSome (l : List (String × Nat)) (k k' : String)
    (h : lookupCount l k' ≠ none) : lookupCount (bump l k) k' ≠ none := by
  by_cases hk : k' = k
  · subst hk; simp [lookupCount_bump_self]
  · rwa [lookupCount_bump_ne _ hk]

theorem lookupCount_bumpBy_ne (l : List (String × Nat)) {k k' : String} (n : Nat)
    (h : k' ≠ k) : lookupCount (bumpBy l k n) k' = lookupCount l k' := by
  induction l with
  | nil => simp [bumpBy, lookupCount, h, Ne.symm h]
  | cons p rest ih =>
    by_cases hp : p.1 = k
    · simp [bumpBy, lookupCount, hp, h, Ne.symm h]
    · by_cases hp' : p.1 = k' <;>
        simp [bumpBy, lookupCount, hp, hp', h, Ne.symm h, ih]

theorem lookupCount_bumpBy_self (l : List (String × Nat)) (k : String) (n : Nat) :
    lookupCount (bumpBy l k n) k = some ((lookupCount l k).getD 0 + n) := by
  induction l with
  | nil => simp [bumpBy, lookupCount]
  | cons p rest ih =>
    by_cases h : p.1 = k
    · simp [bumpBy, lookupCount, h]
    · simp [bumpBy, lookupCount, h, ih]

theorem lookupCount_bumpBy_fresh (l : List (String × Nat)) (k : String) (n : Nat)
    (h : lookupCount l k = none) : lookupCount (bumpBy l k n) k = some n := by
  induction l with
  | nil => simp [bumpBy, lookupCount]
  | cons p rest ih =>
    by_cases hp : p.1 = k
    · simp [lookupCount, hp] at h
    · simp [lookupCount, hp] at h
      simp [bumpBy, lookupCount, hp, ih h]

/-- Preservation of a predicate through a left fold. -/
theorem foldl_pres {α β : Type} (P : α → Prop) (f : α → β → α)
    (h : ∀ a b, P a → P (f a b)) :
    ∀ (l : List β) (a : α), P a → P (l.foldl f a) := by
  intro l
  induction l with
  | nil => intro a ha; simpa using ha
  | cons b rest ih => intro a ha; exact ih _ (h a b ha)

/-- A fold whose step fixes `a` returns `a`. -/
theorem foldl_fixed {α β : Type} (f : α → β → α) (a : α)
    (h : ∀ b, f a b = a) : ∀ l : List β, l.foldl f a = a := by
  intro l
  induction l with
  | nil => rfl
  | cons b rest ih => simp [List.foldl_cons, h b, ih]

/-! ### Claim theorems -/

/-- **C8.** For every null (missing) or non-string input, `detect_and_redact`
returns the input unchanged with two empty maps; the guard
`pd.isna(text) or not isinstance(text, str)` is a total pass-through, not an
error. -/
theorem invalid_input_passthrough :
    ∀ (ner : NerOutcome) (lib : List (Nat × Nat)),
      PII.detectAndRedact .naVal ner lib = (.naVal, [], []) ∧
      PII.detectAndRedact .otherVal ner lib = (.otherVal, [], []) := by
  intro ner lib
  exact ⟨rfl, rfl⟩

/-- **C9.** A raised exception in the named-entity recognizer call is caught
internally: the result of `detect_and_redact` is exactly the result obtained
when the recognizer returns no entities, so every regex/context detector
still contributes its counts and masks unchanged. -/
theorem ner_failure_resilience :
    ∀ (t : List Char) (lib : List (Nat × Nat)),
      PII.detectAndRedact (.str t) .failed lib =
        PII.detectAndRedact (.str t) (.ok []) lib := by
  intro t lib
  rfl

/-- **C1, counterexample.** A counts map holding only a company-ID (CNPJ)
count is classified `CRÍTICO` by the record risk classifier, not `MODERADO`
as the claim states: `CNPJ` belongs to the classifier's critical set. -/
theorem record_classifier_cnpj_critical :
    Report.classifyRecord [("CNPJ", 1)] =
      some ("CRÍTICO", ["Cadastro Nacional de Pessoa Jurídica"]) := by
  decide

/-- **C2, counterexample.** On `"12345 6789012023 45"` the indexReport
engine's phone pattern matches `(6, 16)` inside the legal-process (SEI)
match `(0, 19)`; the two spans overlap, yet the engine records a `PHONE`
count of 1 — the phone pattern runs before the SEI pattern and no overlap
suppression exists. -/
theorem ir_phone_counted_on_process_overlap :
    reFinditer false IR.phoneRe "12345 6789012023 45".toList = [(6, 16)] ∧
    reFinditer false IR.seiRe "12345 6789012023 45".toList = [(0, 19)] ∧
    overlapsB 6 16 (List.range' 0 19) = true ∧
    IR.detect (.str "12345 6789012023 45".toList) [] =
      (.str "xxxxx xxxxxxxxxx xx".toList, [("PHONE", 1), ("SEI_PROCESS", 1)]) := by
  refine ⟨by decide, by decide, by decide, by decide⟩

/-- **C3, counterexample.** `"00000000000"` satisfies both check-digit
equations of the claim, yet `_validate_cpf_digit` returns `false`: the
validator additionally rejects strings of eleven identical digits. -/
theorem tax_id_checksum_counterexample :
    PII.validateCpfDigit "00000000000".toList = false ∧
    ((List.range 9).map
        (fun i => digitVal ("00000000000".toList.getD i '0') * (10 - i))).sum
      * 10 % 11 % 10 = digitVal ("00000000000".toList.getD 9 '0') ∧
    ((List.range 10).map
        (fun i => digitVal ("00000000000".toList.getD i '0') * (11 - i))).sum
      * 10 % 11 % 10 = digitVal ("00000000000".toList.getD 10 '0') := by
  refine ⟨by decide, by decide, by decide⟩

/-- **C4, counterexample.** `"11987654321"` is a bare 11-digit run with no
tax-ID keyword nearby, so the claim says it is left untouched; in fact the
phone detector masks all of it and records a `PHONE` count. -/
theorem bare_digits_masked_by_phone :
    PII.cpfLooseMatches "11987654321".toList = [(0, 11)] ∧
    PII.hasCpfContext "11987654321".toList 0 = false ∧
    PII.detectAndRedact (.str "11987654321".toList) .noModel [] =
      (.str "xxxxxxxxxxx".toList, [("PHONE", 1)], []) := by
  refine ⟨by decide, by decide, by decide⟩

/-- **C6, counterexample.** In
`"529.982.247-25 Rua menor de idade 5"` the sensitive keyword
`menor de idade` matches at `(19, 33)`, a range already fully masked by the
address detector; the claim says such a candidate is dropped, yet the
sensitive-topic scanner still counts it. -/
theorem sensitive_ignores_overlap :
    reFinditer true (Re.seq [.wb, Re.str "menor de idade", .wb])
        "529.982.247-25 Rua menor de idade 5".toList = [(19, 33)] ∧
    overlapsB 19 33
      (PII.pipelinePreSens "529.982.247-25 Rua menor de idade 5".toList
        .noModel []).mask = true ∧
    lookupCount
      (PII.detectAndRedact (.str "529.982.247-25 Rua menor de idade 5".toList)
        .noModel []).2.1 "SENSITIVE_MINOR" = some 1 := by
  refine ⟨by decide, by decide, by decide⟩

/-! ### Renderer lemmas (claim C7) -/

theorem renderMask_length (t : List Char) (mask : List Nat) :
    (renderMask t mask).length = t.length := by
  simp [renderMask, List.enum_length]

theorem renderMask_getD (t : List Char) (mask : List Nat) (i : Nat)
    (h : i < t.length) :
    (renderMask t mask).getD i ' ' =
      if mask.contains i then
        (if pyAlnum (t.getD i ' ') then 'x' else t.getD i ' ')
      else t.getD i ' ' := by
  rw [List.getD_eq_getElem?_getD, renderMask, List.getElem?_map, List.getElem?_enum,
      List.getElem?_eq_getElem h, List.getD_eq_getElem?_getD,
      List.getElem?_eq_getElem h]
  rfl

/-- **C7.** `detect_and_redact` renders the computed mask index set over the
input: the redacted text is exactly as long as the input, an unmasked offset
keeps its character, a masked alphanumeric character becomes the placeholder
`'x'`, and a masked non-alphanumeric character is preserved; in particular
`"CPF: 123.456.789-09"` becomes the equal-length `"CPF: xxx.xxx.xxx-xx"`
with every digit replaced and all periods, hyphens and spaces intact. -/
theorem redaction_renderer :
    (∀ (t : List Char) (ner : NerOutcome) (lib : List (Nat × Nat)),
      (PII.detectAndRedact (.str t) ner lib).1 =
        .str (renderMask t (PII.pipeline t ner lib).mask)) ∧
    (∀ (t : List Char) (mask : List Nat),
      (renderMask t mask).length = t.length) ∧
    (∀ (t : List Char) (mask : List Nat) (i : Nat), i < t.length →
      (mask.contains i = false →
        (renderMask t mask).getD i ' ' = t.getD i ' ') ∧
      (mask.contains i = true → pyAlnum (t.getD i ' ') = true →
        (renderMask t mask).getD i ' ' = 'x') ∧
      (mask.contains i = true → pyAlnum (t.getD i ' ') = false →
        (renderMask t mask).getD i ' ' = t.getD i ' ')) ∧
    PII.detectAndRedact (.str "CPF: 123.456.789-09".toList) .noModel [] =
      (.str "CPF: xxx.xxx.xxx-xx".toList, [("CPF", 1)], []) := by
  refine ⟨fun t ner lib => rfl, renderMask_length, fun t mask i h => ?_, by decide⟩
  refine ⟨fun hm => ?_, fun hm ha => ?_, fun hm ha => ?_⟩
  · rw [renderMask_getD t mask i h, hm]
    simp
  · rw [renderMask_getD t mask i h, hm, ha]
    simp
  · rw [renderMask_getD t mask i h, hm, ha]
    simp

/-- **C7, witness.** Concrete renderer facts obtained from
`redaction_renderer` at `"ab-1"` with mask `{2, 3}`. -/
theorem redaction_renderer_witness :
    (renderMask "ab-1".toList [2, 3]).getD 0 ' ' = 'a' ∧
    (renderMask "ab-1".toList [2, 3]).getD 3 ' ' = 'x' ∧
    (renderMask "ab-1".toList [2, 3]).getD 2 ' ' = '-' := by
  refine ⟨?_, ?_, ?_⟩
  · exact (redaction_renderer.2.2.1 "ab-1".toList [2, 3] 0 (by decide)).1 (by decide)
  · exact (redaction_renderer.2.2.1 "ab-1".toList [2, 3] 3 (by decide)).2.1
      (by decide) (by decide)
  · exact (redaction_renderer.2.2.1 "ab-1".toList [2, 3] 2 (by decide)).2.2
      (by decide) (by decide)

/-! ### Stage lemmas for the sensitive-topic gate (claim C5) -/

theorem addSpan_stats_lookup_ne (st : PII.St) (s e : Nat) (key : String)
    (b : Bool) {c : String} (h : c ≠ key) :
    lookupCount (PII.addSpan st s e key b).stats c = lookupCount st.stats c := by
  unfold PII.addSpan
  split
  · rfl
  · simp [lookupCount_bump_ne _ h]

theorem entStep_stats_lookup_ne (t : List Char) (st : PII.St) (ent : Ent)
    {c : String} (h : c ≠ "PERSON_NAME") :
    lookupCount (PII.entStep t st ent).stats c = lookupCount st.stats c := by
  unfold PII.entStep
  dsimp only
  repeat' split
  all_goals first | rfl | exact addSpan_stats_lookup_ne _ _ _ _ _ h

theorem pipelinePreSens_lookup_ne (t : List Char) (ner : NerOutcome)
    (lib : List (Nat × Nat)) {c : String}
    (h1 : c ≠ "CPF") (h2 : c ≠ "PERSON_NAME") (h3 : c ≠ "GENERAL_REGISTRY")
    (h4 : c ≠ "CNPJ") (h5 : c ≠ "EMAIL") (h6 : c ≠ "FULL_ADDRESS")
    (h7 : c ≠ "PHONE") :
    lookupCount (PII.pipelinePreSens t ner lib).stats c = none := by
  let P : PII.St → Prop := fun st => lookupCount st.stats c = none
  have hcpf : ∀ st : PII.St, P st → P (PII.cpfStage t st) := by
    intro st hst
    exact foldl_pres P _
      (fun a m ha => by simpa [P, lookupCount_bump_ne _ h1] using ha) _ _ hst
  have hner : ∀ st : PII.St, P st → P (PII.nerStage t ner st) := by
    intro st hst
    unfold PII.nerStage
    match ner with
    | .noModel => exact hst
    | .failed => exact hst
    | .ok ents =>
      exact foldl_pres P _
        (fun a ent ha => by
          simpa [P, entStep_stats_lookup_ne t a ent h2] using ha) _ _ hst
  have hgr : ∀ st : PII.St, P st → P (PII.grStage t st) := fun st hst =>
    foldl_pres P _
      (fun a m ha => by simpa [P, addSpan_stats_lookup_ne _ _ _ _ _ h3] using ha)
      _ _ hst
  have hcnpj : ∀ st : PII.St, P st → P (PII.cnpjStage t st) := fun st hst =>
    foldl_pres P _
      (fun a m ha => by simpa [P, addSpan_stats_lookup_ne _ _ _ _ _ h4] using ha)
      _ _ hst
  have hcontact : ∀ st : PII.St, P st → P (PII.contactStage t st) := by
    intro st hst
    unfold PII.contactStage
    refine foldl_pres P _
      (fun a m ha => by simpa [P, addSpan_stats_lookup_ne _ _ _ _ _ h6] using ha)
      _ _ ?_
    refine foldl_pres P _
      (fun a m ha => by simpa [P, addSpan_stats_lookup_ne _ _ _ _ _ h6] using ha)
      _ _ ?_
    exact foldl_pres P _
      (fun a m ha => by simpa [P, addSpan_stats_lookup_ne _ _ _ _ _ h5] using ha)
      _ _ hst
  have hphone : ∀ st : PII.St, P st → P (PII.phoneStage t st) := fun st hst =>
    foldl_pres P _
      (fun a p ha =>
        foldl_pres P _
          (fun a2 m ha2 => by
            simpa [P, addSpan_stats_lookup_ne _ _ _ _ _ h7] using ha2)
          _ _ ha)
      _ _ hst
  have hlib : ∀ st : PII.St, P st → P (PII.phoneLibStage lib st) := fun st hst =>
    foldl_pres P _
      (fun a m ha => by simpa [P, addSpan_stats_lookup_ne _ _ _ _ _ h7] using ha)
      _ _ hst
  exact hlib _ (hphone _ (hcontact _ (hcnpj _ (hgr _ (hner _ (hcpf _ rfl))))))

theorem sensAdd_hasId (key : String) (st : PII.St) (m : Nat × Nat) :
    (PII.sensAdd key st m).hasId = st.hasId := by
  unfold PII.sensAdd
  split <;> rfl

theorem sensStage_of_not_hasId (t : List Char) (st : PII.St)
    (h : st.hasId = false) : PII.sensStage t st = st := by
  unfold PII.sensStage
  refine foldl_fixed _ _ (fun kv => ?_) _
  refine foldl_fixed _ _ (fun kw => ?_) _
  refine foldl_fixed _ _ (fun m => ?_) _
  unfold PII.sensAdd
  simp [h]

theorem sensStage_hasId (t : List Char) (st : PII.St) :
    (PII.sensStage t st).hasId = st.hasId := by
  unfold PII.sensStage
  refine foldl_pres (fun s : PII.St => s.hasId = st.hasId) _ (fun a kv ha => ?_) _ _ rfl
  refine foldl_pres (fun s : PII.St => s.hasId = st.hasId) _ (fun a2 kw ha2 => ?_) _ _ ha
  refine foldl_pres (fun s : PII.St => s.hasId = st.hasId) _ (fun a3 m ha3 => ?_) _ _ ha2
  show (PII.sensAdd kv.1 a3 m).hasId = st.hasId
  rw [sensAdd_hasId]
  exact ha3

theorem identifierEvidence_addSpan (st : PII.St) (s e : Nat) (key : String)
    (b : Bool) (hb : b = false) (h : identifierEvidence st) :
    identifierEvidence (PII.addSpan st s e key b) := by
  subst hb
  unfold PII.addSpan
  split
  · exact h
  · intro hid
    simp only at hid
    rcases h (by simpa using hid) with hc | hc | hc
    · exact Or.inl (lookupCount_bump_isSome _ _ _ hc)
    · exact Or.inr (Or.inl (lookupCount_bump_isSome _ _ _ hc))
    · exact Or.inr (Or.inr (lookupCount_bump_isSome _ _ _ hc))

theorem identifierEvidence_addSpan_id (st : PII.St) (s e : Nat) (key : String)
    (h : identifierEvidence st)
    (hkey : key = "PERSON_NAME" ∨ key = "GENERAL_REGISTRY") :
    identifierEvidence (PII.addSpan st s e key true) := by
  unfold PII.addSpan
  split
  · exact h
  · intro _
    rcases hkey with rfl | rfl
    · exact Or.inr (Or.inl (by simp [lookupCount_bump_self]))
    · exact Or.inr (Or.inr (by simp [lookupCount_bump_self]))

theorem identifierEvidence_entStep (t : List Char) (st : PII.St) (ent : Ent)
    (h : identifierEvidence st) :
    identifierEvidence (PII.entStep t st ent) := by
  unfold PII.entStep
  dsimp only
  repeat' split
  all_goals
    first
    | exact h
    | exact identifierEvidence_addSpan_id _ _ _ _ h (Or.inl rfl)

theorem identifierEvidence_pipelinePreSens (t : List Char) (ner : NerOutcome)
    (lib : List (Nat × Nat)) :
    identifierEvidence (PII.pipelinePreSens t ner lib) := by
  have hcpf : ∀ st : PII.St, identifierEvidence st →
      identifierEvidence (PII.cpfStage t st) := by
    intro st hst
    refine foldl_pres identifierEvidence _ (fun a m _ => ?_) _ _ hst
    intro _
    exact Or.inl (by simp [lookupCount_bump_self])
  have hner : ∀ st : PII.St, identifierEvidence st →
      identifierEvidence (PII.nerStage t ner st) := by
    intro st hst
    unfold PII.nerStage
    match ner with
    | .noModel => exact hst
    | .failed => exact hst
    | .ok ents =>
      exact foldl_pres identifierEvidence _
        (fun a ent ha => identifierEvidence_entStep t a ent ha) _ _ hst
  have hgr : ∀ st : PII.St, identifierEvidence st →
      identifierEvidence (PII.grStage t st) := fun st hst =>
    foldl_pres identifierEvidence _
      (fun a m ha => identifierEvidence_addSpan_id _ _ _ _ ha (Or.inr rfl))
      _ _ hst
  have hcnpj : ∀ st : PII.St, identifierEvidence st →
      identifierEvidence (PII.cnpjStage t st) := fun st hst =>
    foldl_pres identifierEvidence _
      (fun a m ha => identifierEvidence_addSpan _ _ _ _ _ rfl ha) _ _ hst
  have hcontact : ∀ st : PII.St, identifierEvidence st →
      identifierEvidence (PII.contactStage t st) := by
    intro st hst
    unfold PII.contactStage
    refine foldl_pres identifierEvidence _
      (fun a m ha => identifierEvidence_addSpan _ _ _ _ _ rfl ha) _ _ ?_
    refine foldl_pres identifierEvidence _
      (fun a m ha => identifierEvidence_addSpan _ _ _ _ _ rfl ha) _ _ ?_
    exact foldl_pres identifierEvidence _
      (fun a m ha => identifierEvidence_addSpan _ _ _ _ _ rfl ha) _ _ hst
  have hphone : ∀ st : PII.St, identifierEvidence st →
      identifierEvidence (PII.phoneStage t st) := fun st hst =>
    foldl_pres identifierEvidence _
      (fun a p ha =>
        foldl_pres identifierEvidence _
          (fun a2 m ha2 => identifierEvidence_addSpan _ _ _ _ _ rfl ha2)
          _ _ ha)
      _ _ hst
  have hlib : ∀ st : PII.St, identifierEvidence st →
      identifierEvidence (PII.phoneLibStage lib st) := fun st hst =>
    foldl_pres identifierEvidence _
      (fun a m ha => identifierEvidence_addSpan _ _ _ _ _ rfl ha) _ _ hst
  have hinit : identifierEvidence ⟨[], [], [], false⟩ := by
    intro h
    simp at h
  exact hlib _ (hphone _ (hcontact _ (hcnpj _ (hgr _ (hner _ (hcpf _ hinit))))))

theorem identifierEvidence_sensStage (t : List Char) (st : PII.St)
    (h : identifierEvidence st) : identifierEvidence (PII.sensStage t st) := by
  refine foldl_pres identifierEvidence _ (fun a kv ha => ?_) _ _ h
  refine foldl_pres identifierEvidence _ (fun a2 kw ha2 => ?_) _ _ ha
  refine foldl_pres identifierEvidence _ (fun a3 m ha3 => ?_) _ _ ha2
  unfold PII.sensAdd
  split
  · intro _
    rcases ha3 (by assumption) with hc | hc | hc
    · exact Or.inl (lookupCount_bump_isSome _ _ _ hc)
    · exact Or.inr (Or.inl (lookupCount_bump_isSome _ _ _ hc))
    · exact Or.inr (Or.inr (lookupCount_bump_isSome _ _ _ hc))
  · exact ha3

/-- **C5.** A sensitive-topic category is counted only when
`has_identifier` is true, which in turn happens exactly when a tax ID,
validated person name or general-registry number was counted for the text;
a lone sensitive keyword yields no sensitive count, while the same text
with a tax ID prepended yields the sensitive category counted. -/
theorem sensitive_gating :
    (∀ (t : List Char) (ner : NerOutcome) (lib : List (Nat × Nat)) (c : String),
      c ∈ sensitiveCats →
      lookupCount (PII.detectAndRedact (.str t) ner lib).2.1 c ≠ none →
      (lookupCount (PII.detectAndRedact (.str t) ner lib).2.1 "CPF" ≠ none ∨
       lookupCount (PII.detectAndRedact (.str t) ner lib).2.1 "PERSON_NAME" ≠ none ∨
       lookupCount (PII.detectAndRedact (.str t) ner lib).2.1 "GENERAL_REGISTRY" ≠ none)) ∧
    PII.detectAndRedact (.str "menor de idade".toList) .noModel [] =
      (.str "menor de idade".toList, [], []) ∧
    PII.detectAndRedact (.str "529.982.247-25 menor de idade".toList) .noModel [] =
      (.str "xxx.xxx.xxx-xx xxxxx xx xxxxx".toList,
       [("CPF", 1), ("SENSITIVE_MINOR", 1)], []) := by
  refine ⟨fun t ner lib c hc hsome => ?_, by decide, by decide⟩
  have hstats : (PII.detectAndRedact (.str t) ner lib).2.1 =
      (PII.pipeline t ner lib).stats := rfl
  rw [hstats] at hsome ⊢
  by_cases hid : (PII.pipelinePreSens t ner lib).hasId
  · have hev := identifierEvidence_sensStage t _
      (identifierEvidence_pipelinePreSens t ner lib)
    have hid' : (PII.pipeline t ner lib).hasId = true := by
      rw [PII.pipeline, sensStage_hasId]
      exact hid
    exact hev hid'
  · exfalso
    apply hsome
    have hfix : PII.pipeline t ner lib = PII.pipelinePreSens t ner lib :=
      sensStage_of_not_hasId t _ (by simpa using hid)
    rw [hfix]
    exact pipelinePreSens_lookup_ne t ner lib
      (ne_of_mem_of_not_mem hc (by decide))
      (ne_of_mem_of_not_mem hc (by decide))
      (ne_of_mem_of_not_mem hc (by decide))
      (ne_of_mem_of_not_mem hc (by decide))
      (ne_of_mem_of_not_mem hc (by decide))
      (ne_of_mem_of_not_mem hc (by decide))
      (ne_of_mem_of_not_mem hc (by decide))

/-- **C5, witness.** `sensitive_gating` applied to
`"529.982.247-25 menor de idade"` and `SENSITIVE_MINOR`. -/
theorem sensitive_gating_witness :
    lookupCount
        (PII.detectAndRedact (.str "529.982.247-25 menor de idade".toList)
          .noModel []).2.1 "CPF" ≠ none ∨
    lookupCount
        (PII.detectAndRedact (.str "529.982.247-25 menor de idade".toList)
          .noModel []).2.1 "PERSON_NAME" ≠ none ∨
    lookupCount
        (PII.detectAndRedact (.str "529.982.247-25 menor de idade".toList)
          .noModel []).2.1 "GENERAL_REGISTRY" ≠ none :=
  sensitive_gating.1 "529.982.247-25 menor de idade".toList .noModel []
    "SENSITIVE_MINOR" (by decide) (by decide)

/-- **C6, amended.** The drop-on-overlap policy governs the non-sensitive
detectors only: a candidate span whose range intersects the accumulated mask
is dropped whole, otherwise it is masked and counted — but the
sensitive-topic scanner masks and counts every keyword hit whenever
`has_identifier` is set, with no overlap check at all. -/
theorem overlap_policy :
    (∀ (st : PII.St) (s e : Nat) (key : String) (b : Bool),
      overlapsB s e st.mask = true → PII.addSpan st s e key b = st) ∧
    (∀ (st : PII.St) (s e : Nat) (key : String) (b : Bool),
      overlapsB s e st.mask = false →
        (PII.addSpan st s e key b).mask = maskRange s e st.mask ∧
        (PII.addSpan st s e key b).stats = bump st.stats key) ∧
    (∀ (key : String) (st : PII.St) (m : Nat × Nat), st.hasId = true →
      (PII.sensAdd key st m).mask = maskRange m.1 m.2 st.mask ∧
      (PII.sensAdd key st m).stats = bump st.stats key) := by
  refine ⟨fun st s e key b h => ?_, fun st s e key b h => ?_,
    fun key st m h => ?_⟩
  · unfold PII.addSpan
    simp [h]
  · unfold PII.addSpan
    simp [h]
  · unfold PII.sensAdd
    simp [h]

/-- **C6, witness.** `overlap_policy` applied at concrete states: an
overlapping candidate is dropped, a disjoint one is masked and counted, and
a sensitive hit is counted under `has_identifier` even on an overlap. -/
theorem overlap_policy_witness :
    PII.addSpan ⟨[1], [], [], false⟩ 0 2 "EMAIL" false = ⟨[1], [], [], false⟩ ∧
    (PII.addSpan ⟨[5], [], [], false⟩ 0 2 "EMAIL" false).stats = [("EMAIL", 1)] ∧
    (PII.sensAdd "SENSITIVE_HEALTH" ⟨[0], [], [], true⟩ (0, 2)).stats =
      [("SENSITIVE_HEALTH", 1)] := by
  refine ⟨overlap_policy.1 ⟨[1], [], [], false⟩ 0 2 "EMAIL" false (by decide),
    ((overlap_policy.2.1 ⟨[5], [], [], false⟩ 0 2 "EMAIL" false (by decide)).2).trans
      (by decide),
    ((overlap_policy.2.2 "SENSITIVE_HEALTH" ⟨[0], [], [], true⟩ (0, 2) rfl).2).trans
      (by decide)⟩

/-- **C4, amended.** Every span produced by `_detect_cpf` is either a
formatted tax-ID match (always accepted, regardless of context) or a bare
11-digit run with a tax-ID keyword in its context window; every formatted
match is detected.  A bare run without a keyword is therefore never detected
as a tax ID — but other detectors (such as the phone patterns) may still
mask and count it. -/
theorem cpf_detection_policy :
    (∀ (t : List Char) (m : Nat × Nat × Bool), m ∈ PII.detectCpf t →
      (m.1, m.2.1) ∈ PII.cpfFormattedMatches t ∨ PII.hasCpfContext t m.1 = true) ∧
    (∀ (t : List Char) (s e : Nat), (s, e) ∈ PII.cpfFormattedMatches t →
      (s, e, PII.validateCpfDigit ((sliceL t s e).filter Char.isDigit)) ∈
        PII.detectCpf t) := by
  constructor
  · intro t m hm
    unfold PII.detectCpf at hm
    dsimp only at hm
    revert m
    refine foldl_pres
      (fun acc : List Nat × List (Nat × Nat × Bool) =>
        ∀ m ∈ acc.2, (m.1, m.2.1) ∈ PII.cpfFormattedMatches t ∨
          PII.hasCpfContext t m.1 = true)
      _ (fun a b ha => ?_) _ _ ?_
    · dsimp only
      split
      · exact ha
      · split
        case isTrue hctx =>
          intro m hm
          rcases List.mem_append.1 hm with hold | hnew
          · exact ha m hold
          · rcases List.mem_singleton.1 hnew with rfl
            exact Or.inr hctx
        · exact ha
    · intro m hm
      rcases List.mem_map.1 hm with ⟨mm, hmm, rfl⟩
      exact Or.inl hmm
  · intro t s e hse
    unfold PII.detectCpf
    dsimp only
    refine foldl_pres
      (fun acc : List Nat × List (Nat × Nat × Bool) =>
        (s, e, PII.validateCpfDigit ((sliceL t s e).filter Char.isDigit)) ∈ acc.2)
      _ (fun a b ha => ?_) _ _ ?_
    · dsimp only
      split
      · exact ha
      · split
        · exact List.mem_append.2 (Or.inl ha)
        · exact ha
    · exact List.mem_map.2 ⟨(s, e), hse, rfl⟩

/-- **C4, witness.** `cpf_detection_policy` applied to the formatted tax ID
`"529.982.247-25"`. -/
theorem cpf_detection_policy_witness :
    (0, 14, PII.validateCpfDigit
        ((sliceL "529.982.247-25".toList 0 14).filter Char.isDigit)) ∈
      PII.detectCpf "529.982.247-25".toList :=
  cpf_detection_policy.2 "529.982.247-25".toList 0 14 (by decide)

/-! ### Count characterization of the indexReport engine (claim C2) -/

theorem regexFold_lookup_ne (t : List Char) (pats : List (String × Re))
    {key : String} :
    ∀ (st : List Nat × List (String × Nat)), (∀ p ∈ pats, p.1 ≠ key) →
      lookupCount (IR.regexFold t pats st).2 key = lookupCount st.2 key := by
  induction pats with
  | nil => intro st _; rfl
  | cons p rest ih =>
    intro st h
    show lookupCount (IR.regexFold t rest _).2 key = _
    rw [ih _ (fun q hq => h q (List.mem_cons_of_mem p hq))]
    dsimp only
    split
    · rfl
    · exact lookupCount_bumpBy_ne _ _ (Ne.symm (h p (List.mem_cons_self p rest)))

theorem regexFold_cons (t : List Char) (key : String) (r : Re)
    (post : List (String × Re)) (st : List Nat × List (String × Nat)) :
    IR.regexFold t ((key, r) :: post) st =
      IR.regexFold t post
        (if (reFinditer false r t).isEmpty then st
         else ((reFinditer false r t).foldl
                 (fun mask m => mask ++ List.range' m.1 (m.2 - m.1)) st.1,
               bumpBy st.2 key (reFinditer false r t).length)) := by
  unfold IR.regexFold
  rw [List.foldl_cons]

theorem regexFold_append (t : List Char) (l1 l2 : List (String × Re))
    (st : List Nat × List (String × Nat)) :
    IR.regexFold t (l1 ++ l2) st = IR.regexFold t l2 (IR.regexFold t l1 st) := by
  unfold IR.regexFold
  rw [List.foldl_append]

theorem regexFold_lookup_hit (t : List Char) (pre post : List (String × Re))
    (key : String) (r : Re) (st : List Nat × List (String × Nat))
    (hpre : ∀ p ∈ pre, p.1 ≠ key) (hpost : ∀ p ∈ post, p.1 ≠ key) :
    lookupCount (IR.regexFold t (pre ++ (key, r) :: post) st).2 key =
      (if (reFinditer false r t).isEmpty then lookupCount st.2 key
       else some ((lookupCount st.2 key).getD 0 +
         (reFinditer false r t).length)) := by
  rw [regexFold_append, regexFold_cons]
  by_cases hc : (reFinditer false r t).isEmpty
  · rw [if_pos hc, if_pos hc, regexFold_lookup_ne t post _ hpost,
      regexFold_lookup_ne t pre st hpre]
  · rw [if_neg hc, if_neg hc, regexFold_lookup_ne t post _ hpost]
    dsimp only
    rw [lookupCount_bumpBy_self, regexFold_lookup_ne t pre st hpre]

theorem entStage_lookup_ne (ents : List Ent) {key : String}
    (h1 : key ≠ "PERSON_NAME") (h2 : key ≠ "LOCATION") :
    ∀ st : List Nat × List (String × Nat),
      lookupCount (IR.entStage ents st).2 key = lookupCount st.2 key := by
  intro st
  unfold IR.entStage
  refine foldl_pres
    (fun s : List Nat × List (String × Nat) =>
      lookupCount s.2 key = lookupCount st.2 key)
    _ (fun a ent ha => ?_) _ _ rfl
  dsimp only
  split
  · rw [← ha]
    exact lookupCount_bump_ne _ h1
  · split
    · rw [← ha]
      exact lookupCount_bump_ne _ h2
    · exact ha

/-- **C2, amended.** The only engine revision with a legal-process (SEI)
pattern applies its phone pattern before the SEI pattern and performs no
overlap suppression: for every input each pattern's count equals the number
of matches of that pattern alone, so a phone-shaped run inside a
legal-process number is still counted as `PHONE` (and the SEI span is also
counted and masked). -/
theorem ir_no_overlap_suppression :
    ∀ (t : List Char) (ents : List Ent),
      lookupCount (IR.detect (.str t) ents).2 "PHONE" =
        (if (reFinditer false IR.phoneRe t).isEmpty then none
         else some (reFinditer false IR.phoneRe t).length) ∧
      lookupCount (IR.detect (.str t) ents).2 "SEI_PROCESS" =
        (if (reFinditer false IR.seiRe t).isEmpty then none
         else some (reFinditer false IR.seiRe t).length) := by
  intro t ents
  have hdet : (IR.detect (.str t) ents).2 =
      (IR.entStage ents (IR.regexStage t ([], []))).2 := rfl
  constructor
  · rw [hdet, entStage_lookup_ne ents (by decide) (by decide)]
    have hsplit : IR.irPatterns =
        [("CPF", IR.cpfRe), ("CNPJ", IR.cnpjRe), ("RG", IR.rgRe),
         ("EMAIL", IR.emailRe)] ++ ("PHONE", IR.phoneRe) ::
        [("CEP", IR.cepRe), ("SEI_PROCESS", IR.seiRe),
         ("DATE_BIRTH", IR.dateRe)] := rfl
    rw [IR.regexStage, hsplit, regexFold_lookup_hit t _ _ _ _ _
      (by intro p hp
          simp only [List.mem_cons, List.not_mem_nil, or_false] at hp
          rcases hp with rfl | rfl | rfl | rfl <;> decide)
      (by intro p hp
          simp only [List.mem_cons, List.not_mem_nil, or_false] at hp
          rcases hp with rfl | rfl | rfl <;> decide)]
    split <;> simp [lookupCount]
  · rw [hdet, entStage_lookup_ne ents (by decide) (by decide)]
    have hsplit : IR.irPatterns =
        [("CPF", IR.cpfRe), ("CNPJ", IR.cnpjRe), ("RG", IR.rgRe),
         ("EMAIL", IR.emailRe), ("PHONE", IR.phoneRe), ("CEP", IR.cepRe)] ++
        ("SEI_PROCESS", IR.seiRe) :: [("DATE_BIRTH", IR.dateRe)] := rfl
    rw [IR.regexStage, hsplit, regexFold_lookup_hit t _ _ _ _ _
      (by intro p hp
          simp only [List.mem_cons, List.not_mem_nil, or_false] at hp
          rcases hp with rfl | rfl | rfl | rfl | rfl | rfl <;> decide)
      (by intro p hp
          simp only [List.mem_cons, List.not_mem_nil, or_false] at hp
          rcases hp with rfl; decide)]
    split <;> simp [lookupCount]

/-! ### Record risk classifier (claim C1) -/

theorem any_contains_iff (cats : List String) (stats : List (String × Nat)) :
    (cats.any (fun c => (stats.map (fun p => p.1)).contains c) = true) ↔
      ∃ p ∈ stats, p.1 ∈ cats := by
  rw [List.any_eq_true]
  constructor
  · rintro ⟨c, hc, hm⟩
    have : c ∈ stats.map (fun p => p.1) := by simpa using hm
    rcases List.mem_map.1 this with ⟨p, hp, rfl⟩
    exact ⟨p, hp, hc⟩
  · rintro ⟨p, hp, hc⟩
    exact ⟨p.1, hc, by simpa using List.mem_map_of_mem (fun q => q.1) hp⟩

/-- **C1, amended.** On a counts map with positive counts over the engine's
category keys, the record risk classifier returns `CRÍTICO` iff some
critical-set category is present — where the critical set additionally
contains the company ID (CNPJ) — with reasons equal to the descriptions of
the critical categories found, in key order; else `MODERADO` iff some
moderate-set category (email, phone, address, person name) is present; and
`PÚBLICO` exactly for the empty map. -/
theorem record_classifier_levels :
    ∀ stats : List (String × Nat),
      (∀ p ∈ stats, 0 < p.2) →
      (∀ p ∈ stats, p.1 ∈ Report.engineCategories) →
      ∃ lvl reasons, Report.classifyRecord stats = some (lvl, reasons) ∧
        (lvl = "CRÍTICO" ↔ ∃ p ∈ stats, p.1 ∈ Report.criticalCategories ∧ 0 < p.2) ∧
        (lvl = "MODERADO" ↔
          (¬ ∃ p ∈ stats, p.1 ∈ Report.criticalCategories) ∧
          ∃ p ∈ stats, p.1 ∈ Report.moderateCategories ∧ 0 < p.2) ∧
        (lvl = "PÚBLICO" ↔ stats = []) ∧
        ((∃ p ∈ stats, p.1 ∈ Report.criticalCategories) →
          reasons = ((stats.map (fun p => p.1)).filter
            (fun c => Report.criticalCategories.contains c)).map
              Report.getDescription) := by
  intro stats hpos hkeys
  unfold Report.classifyRecord
  by_cases hemp : stats.isEmpty
  · rw [if_pos hemp]
    have hnil : stats = [] := List.isEmpty_iff.1 hemp
    subst hnil
    refine ⟨"PÚBLICO", [], rfl, ?_, ?_, ?_, ?_⟩
    · exact ⟨fun h => absurd h (by decide),
        fun ⟨p, hp, _⟩ => absurd hp (List.not_mem_nil p)⟩
    · exact ⟨fun h => absurd h (by decide),
        fun ⟨_, p, hp, _⟩ => absurd hp (List.not_mem_nil p)⟩
    · exact ⟨fun _ => rfl, fun _ => rfl⟩
    · rintro ⟨p, hp, _⟩
      exact absurd hp (List.not_mem_nil p)
  · rw [if_neg hemp]
    have hne : stats ≠ [] := fun h => hemp (by simp [h])
    by_cases hcrit : Report.criticalCategories.any
        (fun c => (stats.map (fun p => p.1)).contains c) = true
    · rw [if_pos hcrit]
      obtain ⟨p, hp, hpc⟩ := (any_contains_iff _ _).1 hcrit
      refine ⟨"CRÍTICO", _, rfl, ?_, ?_, ?_, fun _ => rfl⟩
      · exact ⟨fun _ => ⟨p, hp, hpc, hpos p hp⟩, fun _ => rfl⟩
      · exact ⟨fun h => absurd h (by decide),
          fun ⟨hnc, _⟩ => absurd ⟨p, hp, hpc⟩ hnc⟩
      · exact ⟨fun h => absurd h (by decide), fun h => absurd h hne⟩
    · rw [if_neg hcrit]
      have hnc : ¬ ∃ p ∈ stats, p.1 ∈ Report.criticalCategories := by
        intro hx
        exact hcrit ((any_contains_iff _ _).2 hx)
      obtain ⟨q, hq⟩ := List.exists_mem_of_ne_nil stats hne
      have hqm : q.1 ∈ Report.moderateCategories := by
        rcases List.mem_append.1
            (by simpa [Report.engineCategories] using hkeys q hq) with h | h
        · exact absurd ⟨q, hq, h⟩ hnc
        · exact h
      have hmod : Report.moderateCategories.any
          (fun c => (stats.map (fun p => p.1)).contains c) = true :=
        (any_contains_iff _ _).2 ⟨q, hq, hqm⟩
      rw [if_pos hmod]
      refine ⟨"MODERADO", _, rfl, ?_, ?_, ?_, fun hx => absurd hx hnc⟩
      · exact ⟨fun h => absurd h (by decide),
          fun ⟨p2, hp2, hc2, _⟩ => absurd ⟨p2, hp2, hc2⟩ hnc⟩
      · exact ⟨fun _ => ⟨hnc, q, hq, hqm, hpos q hq⟩, fun _ => rfl⟩
      · exact ⟨fun h => absurd h (by decide), fun h => absurd h hne⟩

/-- **C1, witness.** `record_classifier_levels` applied to the concrete map
`{CNPJ: 1}`. -/
theorem record_classifier_levels_witness :
    ∃ lvl reasons, Report.classifyRecord [("CNPJ", 1)] = some (lvl, reasons) ∧
      (lvl = "CRÍTICO" ↔
        ∃ p ∈ [("CNPJ", 1)], p.1 ∈ Report.criticalCategories ∧ 0 < p.2) ∧
      (lvl = "MODERADO" ↔
        (¬ ∃ p ∈ [("CNPJ", 1)], p.1 ∈ Report.criticalCategories) ∧
        ∃ p ∈ [("CNPJ", 1)], p.1 ∈ Report.moderateCategories ∧ 0 < p.2) ∧
      (lvl = "PÚBLICO" ↔ ([("CNPJ", 1)] : List (String × Nat)) = []) ∧
      ((∃ p ∈ [("CNPJ", 1)], p.1 ∈ Report.criticalCategories) →
        reasons = (([("CNPJ", 1)].map (fun p => p.1)).filter
          (fun c => Report.criticalCategories.contains c)).map
            Report.getDescription) :=
  record_classifier_levels [("CNPJ", 1)] (by decide) (by decide)

/-! ### Tax-ID checksum (claim C3) -/

theorem foldl_add_map (f : Nat → Nat) :
    ∀ (l : List Nat) (a : Nat),
      l.foldl (fun a i => a + f i) a = a + (l.map f).sum := by
  intro l
  induction l with
  | nil => intro a; simp
  | cons x xs ih =>
    intro a
    rw [List.foldl_cons, ih, List.map_cons, List.sum_cons]
    omega

/-- **C3, amended.** For an 11-digit string the checksum validator returns
true iff the digits are not all identical and both computed check digits
(`(Σ digit[i]·w,i) · 10 mod 11 mod 10`) equal the trailing two digits: the
repeated-digit rejection is part of the validator.  The known ID
`52998224725` validates true and each of its single-digit mutations
validates false. -/
theorem tax_id_checksum :
    (∀ cpf : List Char, cpf.length = 11 → (∀ c ∈ cpf, c.isDigit) →
      (PII.validateCpfDigit cpf = true ↔
        (¬ ∀ c ∈ cpf, c = cpf.headD '0') ∧
        ((List.range 9).map (fun i => digitVal (cpf.getD i '0') * (10 - i))).sum
            * 10 % 11 % 10 = digitVal (cpf.getD 9 '0') ∧
        ((List.range 10).map (fun i => digitVal (cpf.getD i '0') * (11 - i))).sum
            * 10 % 11 % 10 = digitVal (cpf.getD 10 '0'))) ∧
    PII.validateCpfDigit "52998224725".toList = true ∧
    (∀ i < 11, ∀ c ∈ "0123456789".toList,
      c ≠ "52998224725".toList.getD i '0' →
      PII.validateCpfDigit ("52998224725".toList.set i c) = false) := by
  refine ⟨?_, by decide, by decide⟩
  intro cpf hlen hdig
  have hall : cpf.all Char.isDigit = true :=
    List.all_eq_true.2 (fun c hc => hdig c hc)
  unfold PII.validateCpfDigit
  rw [if_neg (by simp [hlen, hall])]
  by_cases hrep : cpf.all (fun c => decide (c = cpf.headD '0')) = true
  · rw [if_pos hrep]
    have hrep' : ∀ c ∈ cpf, c = cpf.headD '0' := by
      intro c hc
      simpa using List.all_eq_true.1 hrep c hc
    constructor
    · intro h
      cases h
    · rintro ⟨hno, _⟩
      exact absurd hrep' hno
  · rw [if_neg hrep]
    have hno : ¬ ∀ c ∈ cpf, c = cpf.headD '0' := by
      intro hy
      exact hrep (List.all_eq_true.2 (fun c hc => by simpa using hy c hc))
    dsimp only
    rw [foldl_add_map, foldl_add_map]
    simp only [Nat.zero_add]
    by_cases h1 :
        ((List.range 9).map
            (fun i => digitVal (cpf.getD i '0') * (10 - i))).sum * 10 % 11 % 10 =
          digitVal (cpf.getD 9 '0')
    · rw [if_neg (by simpa [digitVal] using h1)]
      constructor
      · intro h2
        exact ⟨hno, h1, by simpa [digitVal] using h2⟩
      · rintro ⟨_, _, h2⟩
        simpa [digitVal] using h2
    · rw [if_pos (by simpa [digitVal] using h1)]
      constructor
      · intro h
        cases h
      · rintro ⟨_, h1', _⟩
        exact absurd h1' h1

/-- **C3, witness.** `tax_id_checksum` applied to the known valid ID
`52998224725`. -/
theorem tax_id_checksum_witness :
    PII.validateCpfDigit "52998224725".toList = true ↔
      (¬ ∀ c ∈ "52998224725".toList, c = "52998224725".toList.headD '0') ∧
      ((List.range 9).map
          (fun i => digitVal ("52998224725".toList.getD i '0') * (10 - i))).sum
          * 10 % 11 % 10 = digitVal ("52998224725".toList.getD 9 '0') ∧
      ((List.range 10).map
          (fun i => digitVal ("52998224725".toList.getD i '0') * (11 - i))).sum
          * 10 % 11 % 10 = digitVal ("52998224725".toList.getD 10 '0') :=
  tax_id_checksum.1 "52998224725".toList (by decide) (by decide)

/-! ### Matcher soundness lemmas (claim C10)

Success of the backtracking machine is analysed one instruction at a time;
the lemmas below extract, from a successful email match, the position of its
`@` and the (negative) outcome of the `.gov.br` lookahead there. -/

theorem orElseNat_some {a : Option Nat} {b : Unit → Option Nat} {e : Nat}
    (h : a.orElse b = some e) : a = some e ∨ b () = some e := by
  cases a with
  | none => right; simpa [Option.orElse] using h
  | some x => left; simpa [Option.orElse] using h

theorem reStep_fuel_succ {ci : Bool} {f : Nat} {k : List Re} {prev : Option Char}
    {rest : List Char} {i e : Nat}
    (h : reStep ci f k prev rest i = some e) : ∃ f0, f = f0 + 1 := by
  cases f with
  | zero => simp [reStep] at h
  | succ f0 => exact ⟨f0, rfl⟩

theorem reStep_cls_some {ci : Bool} {p : Char → Bool} {k : List Re}
    {prev : Option Char} {rest : List Char} {i e f : Nat}
    (h : reStep ci (f + 1) (.cls p :: k) prev rest i = some e) :
    ∃ c rs, rest = c :: rs ∧ clsMatch ci p c = true ∧
      reStep ci f k (some c) rs (i + 1) = some e := by
  cases rest with
  | nil => simp [reStep] at h
  | cons c rs =>
    by_cases hc : clsMatch ci p c = true
    · exact ⟨c, rs, rfl, hc, by simpa [reStep, hc] using h⟩
    · simp [reStep, hc] at h

theorem reStep_cat_some {ci : Bool} {a b : Re} {k : List Re} {prev : Option Char}
    {rest : List Char} {i e f : Nat}
    (h : reStep ci (f + 1) (.cat a b :: k) prev rest i = some e) :
    reStep ci f (a :: b :: k) prev rest i = some e := by
  simpa [reStep] using h

theorem reStep_wb_some {ci : Bool} {k : List Re} {prev : Option Char}
    {rest : List Char} {i e f : Nat}
    (h : reStep ci (f + 1) (.wb :: k) prev rest i = some e) :
    reStep ci f k prev rest i = some e := by
  by_cases hb : boundaryB prev rest = true
  · simpa [reStep, hb] using h
  · simp [reStep, hb] at h

theorem reStep_nlk_some {ci : Bool} {g : List Char → Bool} {k : List Re}
    {prev : Option Char} {rest : List Char} {i e f : Nat}
    (h : reStep ci (f + 1) (.nlk g :: k) prev rest i = some e) :
    g rest = false ∧ reStep ci f k prev rest i = some e := by
  by_cases hg : g rest = true
  · simp [reStep, hg] at h
  · exact ⟨by simpa using hg, by simpa [reStep, hg] using h⟩

theorem reStep_star_cls_some {ci : Bool} {p : Char → Bool} {k : List Re} :
    ∀ (f : Nat) {prev : Option Char} {rest : List Char} {i e : Nat},
      reStep ci f (.rep 0 none (.cls p) :: k) prev rest i = some e →
      ∃ (m : Nat) (prev2 : Option Char) (f2 : Nat),
        reStep ci f2 k prev2 (rest.drop m) (i + m) = some e := by
  intro f
  induction f using Nat.strong_induction_on with
  | _ f ih =>
    intro prev rest i e h
    obtain ⟨f0, rfl⟩ := reStep_fuel_succ h
    have h' : (reStep ci f0 (.cls p :: .rep 0 none (.cls p) :: k) prev rest i).orElse
        (fun _ => reStep ci f0 k prev rest i) = some e := by
      simpa [reStep] using h
    rcases orElseNat_some h' with h1 | h2
    · obtain ⟨f1, rfl⟩ := reStep_fuel_succ h1
      obtain ⟨c, rs, hrest, _, h1'⟩ := reStep_cls_some h1
      obtain ⟨m, prev2, f2, h''⟩ := ih f1 (by omega) h1'
      refine ⟨m + 1, prev2, f2, ?_⟩
      rw [hrest]
      have hpos : i + (m + 1) = i + 1 + m := by omega
      rw [List.drop_succ_cons, hpos]
      exact h''
    · exact ⟨0, prev, f0, by simpa using h2⟩

theorem reStep_plus_cls_some {ci : Bool} {p : Char → Bool} {k : List Re}
    {prev : Option Char} {rest : List Char} {i e f : Nat}
    (h : reStep ci (f + 1) (.rep 1 none (.cls p) :: k) prev rest i = some e) :
    ∃ (m : Nat) (prev2 : Option Char) (f2 : Nat), 1 ≤ m ∧
      reStep ci f2 k prev2 (rest.drop m) (i + m) = some e := by
  have h' : reStep ci f (.cls p :: .rep 0 none (.cls p) :: k) prev rest i = some e := by
    simpa [reStep] using h
  obtain ⟨f1, rfl⟩ := reStep_fuel_succ h'
  obtain ⟨c, rs, hrest, _, h''⟩ := reStep_cls_some h'
  obtain ⟨m, prev2, f2, h3⟩ := reStep_star_cls_some f1 h''
  refine ⟨m + 1, prev2, f2, by omega, ?_⟩
  rw [hrest]
  have hpos : i + (m + 1) = i + 1 + m := by omega
  rw [List.drop_succ_cons, hpos]
  exact h3

theorem drop_cons_tail {t : List Char} {i : Nat} {c : Char} {rs : List Char}
    (h : t.drop i = c :: rs) : t.drop (i + 1) = rs := by
  rw [← List.drop_drop 1 i t, h]
  rfl

/-- A successful email match decomposes as local part, `@`, failed
`.gov.br` lookahead, domain: the lookahead is false right after the `@`. -/
theorem email_match_shape {prev : Option Char} {rest : List Char} {i e : Nat}
    (h : reMatchFrom false PII.emailRe prev rest i = some e) :
    ∃ m, 1 ≤ m ∧ (rest.drop m).head? = some '@' ∧
      PII.govLookahead (rest.drop (m + 1)) = false := by
  rw [reMatchFrom] at h
  simp only [PII.emailRe, Re.seq, Re.chr, List.foldr] at h
  obtain ⟨f0, hf⟩ := reStep_fuel_succ h
  rw [hf] at h
  have h1 := reStep_cat_some h
  obtain ⟨f1, hf1⟩ := reStep_fuel_succ h1
  rw [hf1] at h1
  have h2 := reStep_wb_some h1
  obtain ⟨f2, hf2⟩ := reStep_fuel_succ h2
  rw [hf2] at h2
  have h3 := reStep_cat_some h2
  obtain ⟨f3, hf3⟩ := reStep_fuel_succ h3
  rw [hf3] at h3
  obtain ⟨m, prev2, f4, hm1, h4⟩ := reStep_plus_cls_some h3
  obtain ⟨f5, hf5⟩ := reStep_fuel_succ h4
  rw [hf5] at h4
  have h5 := reStep_cat_some h4
  obtain ⟨f6, hf6⟩ := reStep_fuel_succ h5
  rw [hf6] at h5
  obtain ⟨c, rs, hrest, hcls, h6⟩ := reStep_cls_some h5
  have hat : c = '@' := by
    have : (decide (c = '@')) = true := by simpa [clsMatch] using hcls
    exact of_decide_eq_true this
  subst hat
  obtain ⟨f7, hf7⟩ := reStep_fuel_succ h6
  rw [hf7] at h6
  have h7 := reStep_cat_some h6
  obtain ⟨f8, hf8⟩ := reStep_fuel_succ h7
  rw [hf8] at h7
  have h8 := reStep_nlk_some h7
  refine ⟨m, hm1, ?_, ?_⟩
  · rw [hrest]
    rfl
  · rw [drop_cons_tail hrest]
    exact h8.1

theorem finditerAux_succ (ci : Bool) (r : Re) (s : Nat) (prev : Option Char)
    (rest : List Char) (i : Nat) :
    finditerAux ci r (s + 1) prev rest i =
      match reMatchFrom ci r prev rest i with
      | some e =>
        let k := max (e - i) 1
        let prev2 := match (rest.take k).getLast? with
                     | some c => some c
                     | none => prev
        (i, e) :: finditerAux ci r s prev2 (rest.drop k) (i + k)
      | none =>
        match rest with
        | [] => []
        | c :: rs => finditerAux ci r s (some c) rs (i + 1) := rfl

theorem finditerAux_sound {ci : Bool} {r : Re} {t : List Char} :
    ∀ (s : Nat) (prev : Option Char) (rest : List Char) (i : Nat),
      rest = t.drop i →
      ∀ {a b : Nat}, (a, b) ∈ finditerAux ci r s prev rest i →
      ∃ prev2, reMatchFrom ci r prev2 (t.drop a) a = some b := by
  intro s
  induction s with
  | zero =>
    intro prev rest i _ a b hmem
    simp [finditerAux] at hmem
  | succ s ih =>
    intro prev rest i hinv a b hmem
    rw [finditerAux_succ] at hmem
    split at hmem
    · next e hm =>
        rcases List.mem_cons.1 hmem with heq | htail
        · simp only [Prod.mk.injEq] at heq
          obtain ⟨rfl, rfl⟩ := heq
          exact ⟨prev, by rw [← hinv]; exact hm⟩
        · refine ih _ _ _ ?_ htail
          rw [hinv, List.drop_drop]
    · next hm =>
        split at hmem
        · next h0 =>
            simp at hmem
        · next =>
            refine ih _ _ _ ?_ hmem
            exact (drop_cons_tail (t := t) hinv.symm).symm

theorem emailMatches_sound (t : List Char) (a b : Nat)
    (hmem : (a, b) ∈ PII.emailMatches t) :
    ∃ j, a < j ∧ (t.drop j).head? = some '@' ∧
      PII.govLookahead (t.drop (j + 1)) = false := by
  have hmem2 : (a, b) ∈ finditerAux false PII.emailRe (t.length + 1) none t 0 :=
    hmem
  obtain ⟨prev2, hm⟩ :=
    finditerAux_sound (t := t) (t.length + 1) none t 0 (by simp) hmem2
  obtain ⟨m, hm1, hat, hgov⟩ := email_match_shape hm
  refine ⟨a + m, by omega, ?_, ?_⟩
  · rw [List.drop_drop] at hat
    exact hat
  · rw [List.drop_drop] at hgov
    have he : a + (m + 1) = a + m + 1 := by omega
    rw [he] at hgov
    exact hgov

theorem govLookahead_false_iff :
    ∀ l : List Char, PII.govLookahead l = false ↔
      (∀ q, ".gov.br".toList.isPrefixOf (l.drop q) →
        ∃ r2 < q, l.getD r2 ' ' = '\n') := by
  intro l
  induction l with
  | nil =>
    constructor
    · intro _ q hq
      rw [List.drop_nil] at hq
      simp [List.isPrefixOf] at hq
    · intro _
      rfl
  | cons c rest ih =>
    rw [PII.govLookahead]
    by_cases hpre : ".gov.br".toList.isPrefixOf (c :: rest) = true
    · rw [if_pos hpre]
      constructor
      · intro h
        exact absurd h (by simp)
      · intro hq
        obtain ⟨r2, hr2, _⟩ := hq 0 (by simpa using hpre)
        exact absurd hr2 (by omega)
    · rw [if_neg hpre]
      by_cases hnl : c = '\n'
      · rw [if_pos hnl]
        constructor
        · intro _ q hq
          match q with
          | 0 => exact absurd (by simpa using hq) hpre
          | q' + 1 => exact ⟨0, by omega, by simpa [List.getD] using hnl⟩
        · intro _
          rfl
      · rw [if_neg hnl]
        rw [ih]
        constructor
        · intro hr q hq
          match q with
          | 0 => exact absurd (by simpa using hq) hpre
          | q' + 1 =>
            obtain ⟨r2, hr2, hr2'⟩ := hr q' (by simpa using hq)
            exact ⟨r2 + 1, by omega, by simpa [List.getD] using hr2'⟩
        · intro hr q hq
          obtain ⟨r2, hr2, hr2'⟩ := hr (q + 1) (by simpa using hq)
          match r2, hr2, hr2' with
          | 0, _, hr2' => exact absurd (by simpa [List.getD] using hr2') hnl
          | r3 + 1, hr2, hr2' =>
            exact ⟨r3, by omega, by simpa [List.getD] using hr2'⟩

/-- **C10.** The email pattern's negative lookahead `(?!.*\.gov\.br)` makes
a Brazilian-government address unmatchable: every span the email detector
produces has its `@` followed by no later `.gov.br` occurrence (short of an
intervening newline, which `.*` cannot cross), so an address whose text from
the `@` onward continues with `.gov.br` is never matched, contributes no
EMAIL count, and has none of its offsets masked by the email detector; in
particular `"nome@orgao.gov.br"` passes through `detect_and_redact`
entirely unredacted with empty maps. -/
theorem email_gov_exclusion :
    (∀ (t : List Char) (a b : Nat), (a, b) ∈ PII.emailMatches t →
      ∃ j, a < j ∧ (t.drop j).head? = some '@' ∧
        PII.govLookahead (t.drop (j + 1)) = false) ∧
    (∀ l : List Char, PII.govLookahead l = false ↔
      (∀ q, ".gov.br".toList.isPrefixOf (l.drop q) →
        ∃ r2 < q, l.getD r2 ' ' = '\n')) ∧
    PII.emailMatches "nome@orgao.gov.br".toList = [] ∧
    PII.detectAndRedact (.str "nome@orgao.gov.br".toList) .noModel [] =
      (.str "nome@orgao.gov.br".toList, [], []) :=
  ⟨emailMatches_sound, govLookahead_false_iff, by decide, by decide⟩

/-- **C10, witness.** `email_gov_exclusion` applied to the matched address
in `"a@b.com"`. -/
theorem email_gov_exclusion_witness :
    ∃ j, 0 < j ∧ ("a@b.com".toList.drop j).head? = some '@' ∧
      PII.govLookahead ("a@b.com".toList.drop (j + 1)) = false :=
  email_gov_exclusion.1 "a@b.com".toList 0 7 (by decide)

end BackendInfo
